import Mathlib

/-!
Verification of the TropiPay MCP server (yosle/tropipay-mcp-server).

The TypeScript source is shallowly embedded: JavaScript values that flow
through tool handlers are modelled by the inductive `Value`, argument maps
and remote-API payloads are `Value.vObj` objects, template strings are
rebuilt with explicit `++` concatenation, and each tool handler becomes a
total Lean function returning the response envelope together with the list
of remote calls it issued.  A remote call outcome (the wrapped tropipayjs
client either throwing or returning a JSON payload) is supplied by an
oracle of type `Client`.
-/

set_option maxRecDepth 8192
set_option autoImplicit false

/-- A JavaScript runtime value as it appears in the handlers: `undefined`,
`null`, booleans, (integer) numbers, strings, arrays and plain objects. -/
inductive Value : Type
| vUndefined : Value
| vNull : Value
| vBool : Bool → Value
| vNum : Int → Value
| vStr : String → Value
| vArr : List Value → Value
| vObj : List (String × Value) → Value

/-- JavaScript truthiness: `undefined`, `null`, `false`, `0` and the empty
string are falsy; arrays and objects are always truthy. -/
def truthy : Value → Bool
| .vUndefined => false
| .vNull => false
| .vBool b => b
| .vNum n => decide (n ≠ 0)
| .vStr s => decide (s ≠ "")
| .vArr _ => true
| .vObj _ => true

/-- `a || b` on JavaScript values. -/
def jsOr (a b : Value) : Value := if truthy a then a else b

/-- Property read `v.k` on a value that is known not to be `null` or
`undefined`: object lookup, `undefined` for absent keys and for reads on
primitives. -/
def getField (v : Value) (k : String) : Value :=
  match v with
  | .vObj fs => (fs.lookup k).getD .vUndefined
  | _ => .vUndefined

/-- Optional chaining `v?.k`: `undefined` when `v` is `null`/`undefined`,
otherwise a plain property read. -/
def optGet (v : Value) (k : String) : Value :=
  match v with
  | .vNull => .vUndefined
  | .vUndefined => .vUndefined
  | _ => getField v k

/-- `Array.isArray`. -/
def isArray : Value → Bool
| .vArr _ => true
| _ => false

/-- The `.length` read used by the handlers: array length, string length,
an explicit `length` field for objects, `undefined` otherwise. -/
def jsLength : Value → Value
| .vArr es => .vNum es.length
| .vStr s => .vNum s.length
| .vObj fs => (fs.lookup ("length")).getD .vUndefined
| _ => .vUndefined

def isUndefinedV : Value → Bool
| .vUndefined => true
| _ => false

def isNullish : Value → Bool
| .vUndefined => true
| .vNull => true
| _ => false

/-- A value thrown by JavaScript code: an `Error` object carrying a message,
or any other thrown value. -/
inductive ThrownError : Type
| jsError : String → ThrownError
| otherVal : Value → ThrownError

/-- `error instanceof Error ? error.message : 'Unknown error'`. -/
def thrownMessage : ThrownError → String
| .jsError m => m
| .otherVal _ => "Unknown error"

mutual
/-- String coercion used by template-literal interpolation (`String(x)`):
arrays join their elements with commas rendering `null`/`undefined` as
empty, objects print as `[object Object]`. -/
def renderValue : Value → String
  | .vUndefined => "undefined"
  | .vNull => "null"
  | .vBool b => if b then ("true") else ("false")
  | .vNum n => toString n
  | .vStr s => s
  | .vArr es => renderArrItems es
  | .vObj _ => "[object Object]"
termination_by v => (sizeOf v, 0)
def renderArrItems : List Value → String
  | [] => ""
  | [v] => renderElem v
  | v :: vs => renderElem v ++ "," ++ renderArrItems vs
termination_by es => (sizeOf es, 0)
def renderElem : Value → String
  | .vNull => ""
  | .vUndefined => ""
  | v => renderValue v
termination_by v => (sizeOf v, 1)
end

/-- Escape one character for a JSON string literal. -/
def jsonEscapeChar (c : Char) : String :=
  if c = '\\' then ("\\\\")
  else if c = '\"' then ("\\\"")
  else if c = '\n' then ("\\n")
  else if c = '\t' then ("\\t")
  else if c = '\r' then ("\\r")
  else String.singleton c

/-- A JSON string literal with surrounding quotes, as `JSON.stringify`
produces it. -/
def jsonQuote (s : String) : String :=
  "\"" ++ String.join (s.toList.map jsonEscapeChar) ++ "\""

/-- `n` spaces. -/
def spaces (n : Nat) : String := String.join (List.replicate n (" "))

mutual
/-- `JSON.stringify(v)` (compact form, no extra whitespace).  Fields whose
value is `undefined` are omitted from objects; `undefined` array elements
serialize as `null`.  Top-level `undefined` renders as the string
`undefined` because the handlers only ever interpolate the result into a
template literal. -/
def jsonCompact : Value → String
  | .vUndefined => "undefined"
  | .vNull => "null"
  | .vBool b => if b then ("true") else ("false")
  | .vNum n => toString n
  | .vStr s => jsonQuote s
  | .vArr es => "[" ++ jsonCompactArr es ++ "]"
  | .vObj fs => "\x7b" ++ (jsonCompactObj fs).getD ("") ++ "\x7d"
termination_by v => (sizeOf v, 0)
def jsonCompactArr : List Value → String
  | [] => ""
  | [v] => jsonCompactElem v
  | v :: vs => jsonCompactElem v ++ "," ++ jsonCompactArr vs
termination_by es => (sizeOf es, 0)
def jsonCompactElem : Value → String
  | .vUndefined => "null"
  | v => jsonCompact v
termination_by v => (sizeOf v, 1)
def jsonCompactObj : List (String × Value) → Option String
  | [] => none
  | (k, v) :: fs =>
    if isUndefinedV v then jsonCompactObj fs
    else
      match jsonCompactObj fs with
      | none => some (jsonQuote k ++ ":" ++ jsonCompact v)
      | some rest => some (jsonQuote k ++ ":" ++ jsonCompact v ++ "," ++ rest)
termination_by fs => (sizeOf fs, 0)
end

mutual
/-- `JSON.stringify(v, null, 2)` (two-space pretty printing), at nesting
depth `d`. -/
def jsonPrettyAt : Value → Nat → String
  | .vUndefined, _ => "undefined"
  | .vNull, _ => "null"
  | .vBool b, _ => if b then ("true") else ("false")
  | .vNum n, _ => toString n
  | .vStr s, _ => jsonQuote s
  | .vArr [], _ => "[]"
  | .vArr (e :: es), d =>
    "[\n" ++ spaces (2 * (d + 1)) ++ jsonPrettyElem e (d + 1) ++
      jsonPrettyArr es (d + 1) ++ "\n" ++ spaces (2 * d) ++ "]"
  | .vObj fs, d =>
    match jsonPrettyObj fs (d + 1) with
    | none => "\x7b\x7d"
    | some body => "\x7b\n" ++ body ++ "\n" ++ spaces (2 * d) ++ "\x7d"
termination_by v _ => (sizeOf v, 0)
def jsonPrettyArr : List Value → Nat → String
  | [], _ => ""
  | e :: es, d =>
    ",\n" ++ spaces (2 * d) ++ jsonPrettyElem e d ++ jsonPrettyArr es d
termination_by es _ => (sizeOf es, 0)
def jsonPrettyElem : Value → Nat → String
  | .vUndefined, _ => "null"
  | v, d => jsonPrettyAt v d
termination_by v _ => (sizeOf v, 1)
def jsonPrettyObj : List (String × Value) → Nat → Option String
  | [], _ => none
  | (k, v) :: fs, d =>
    if isUndefinedV v then jsonPrettyObj fs d
    else
      let entry := spaces (2 * d) ++ jsonQuote k ++ ": " ++ jsonPrettyAt v d
      match jsonPrettyObj fs d with
      | none => some entry
      | some rest => some (entry ++ ",\n" ++ rest)
termination_by fs _ => (sizeOf fs, 0)
end

/-- `JSON.stringify(v, null, 2)` at top level. -/
def jsonPretty (v : Value) : String := jsonPrettyAt v 0

/-- `JSON.stringify(error)`: an `Error` object has no enumerable
properties, so it serializes as an empty object. -/
def jsonStringifyThrown : ThrownError → String
| .jsError _ => "\x7b\x7d"
| .otherVal v => jsonCompact v

/-! ## Configuration and the TropiPay client singleton

From `src/config/index.ts` (environment snapshot) and `src/client/index.ts`
(lazily memoized client handle). -/

/-- The configuration record produced by `getTropiPayConfig` from the
process environment (absent environment variables are `none`). -/
structure TropiPayConfig : Type where
  environment : String
  baseUrl : Option String
  clientId : Option String
  clientSecret : Option String

/-- Truthiness of a `string | undefined` value. -/
def optTruthy : Option String → Bool
| none => false
| some s => decide (s ≠ "")

/-- Rendering of a `string | undefined` value inside a template literal. -/
def renderOptStr : Option String → String
| none => "undefined"
| some s => s

/-- The constructed `Tropipay` client handle, recording exactly the
constructor arguments the source passes to `new Tropipay(...)`. -/
structure Tropipay : Type where
  clientId : String
  clientSecret : String
  customTropipayUrl : Option String
  serverMode : Option String
deriving DecidableEq

/-- `createTropiPayClient` from `src/client/index.ts`: `null` when either
credential is missing or empty; otherwise a handle built either against the
custom base URL or against the environment-derived server mode. -/
def createTropiPayClient (config : TropiPayConfig) : Option Tropipay :=
  if ¬ optTruthy config.clientId ∨ ¬ optTruthy config.clientSecret then none
  else if optTruthy config.baseUrl then
    some ⟨config.clientId.getD (""), config.clientSecret.getD (""),
      config.baseUrl, none⟩
  else
    some ⟨config.clientId.getD (""), config.clientSecret.getD (""), none,
      some (if config.environment = "production" then ("LIVE") else ("SANDBOX"))⟩

/-- The error message thrown when the client cannot be constructed. -/
def credsErrorMsg : String :=
  "TropiPay credentials not configured. Please set TROPIPAY_CLIENT_ID and TROPIPAY_CLIENT_SECRET environment variables."

/-- `getTropiPayClient` from `src/client/index.ts`, with the module-level
mutable slot `tropiPayClient` made explicit: the function receives the
current slot contents and returns the result together with the new slot
contents. -/
def getTropiPayClient (config : TropiPayConfig) (slot : Option Tropipay) :
    Except String Tropipay × Option Tropipay :=
  match slot with
  | some c => (.ok c, some c)
  | none =>
    match createTropiPayClient config with
    | some c => (.ok c, some c)
    | none => (.error credsErrorMsg, none)

/-! ## Remote calls and tool responses -/

/-- One outbound call to the wrapped tropipayjs client. -/
inductive RemoteCall : Type
| getBalance : RemoteCall
| profile : RemoteCall
| movements : Value → Value → RemoteCall
| accountsList : RemoteCall
| depositAccountsList : RemoteCall
| depositAccountsCreate : Value → RemoteCall
| paymentCardsCreate : Value → RemoteCall
| paymentCardsList : RemoteCall

/-- The outcome of a remote call: the client either throws or returns a
decoded JSON payload. -/
inductive RemoteOutcome : Type
| throws : ThrownError → RemoteOutcome
| returns : Value → RemoteOutcome

/-- The remote-call oracle standing for the authenticated client handle. -/
def Client : Type := RemoteCall → RemoteOutcome

/-- The MCP response envelope `{content: [{type: "text", text}]}`; every
handler returns exactly one text block, so only the text is recorded. -/
structure ToolResponse : Type where
  text : String

/-- The TypeError message raised by a property read on `null`/`undefined`. -/
def typeErrorMsg (v : Value) (k : String) : String :=
  match v with
  | .vNull => "Cannot read properties of null (reading \x27" ++ k ++ "\x27)"
  | _ => "Cannot read properties of undefined (reading \x27" ++ k ++ "\x27)"

/-- The TypeError message raised when destructuring `null`/`undefined`
arguments; `first` is the first destructured property name. -/
def destructureMsg (first : String) (v : Value) : String :=
  match v with
  | .vNull =>
    "Cannot destructure property \x27" ++ first ++ "\x27 of \x27args\x27 as it is null."
  | _ =>
    "Cannot destructure property \x27" ++ first ++ "\x27 of \x27args\x27 as it is undefined."

/-- `error instanceof Error ? error.message : JSON.stringify(error)`. -/
def thrownMessageOrJson : ThrownError → String
| .jsError m => m
| .otherVal v => jsonCompact v

/-- `new Date().toISOString().split('T')[0]`. -/
def isoDatePart (now : String) : String := (now.splitOn ("T")).headD now

/-! ## Tool handlers

Translated from `src/tools/handlers.ts`.  Each handler takes the remote
oracle, the configuration and the current ISO timestamp, and returns the
response envelope together with the list of remote calls it issued. -/

/-- `handleGetAccountBalance`. -/
def handleGetAccountBalance (client : Client) (cfg : TropiPayConfig)
    (now : String) : ToolResponse × List RemoteCall :=
  match client .getBalance with
  | .throws e =>
    (⟨"❌ Failed to get balance: " ++ thrownMessage e⟩, [.getBalance])
  | .returns balance =>
    (⟨"💰 Current Default Account Balance (all amounts are in cents)\n\n" ++
      "Balance: " ++ jsonCompact balance ++ "\n" ++
      "Environment: " ++ cfg.environment ++ "\n" ++
      "Retrieved: " ++ now⟩, [.getBalance])

/-- `handleGetProfileData`.  A `null`/`undefined` profile payload raises a
TypeError at `profile.name`, caught by the handler's own catch block. -/
def handleGetProfileData (client : Client) (cfg : TropiPayConfig)
    (now : String) : ToolResponse × List RemoteCall :=
  match client .profile with
  | .throws e =>
    (⟨"❌ Failed to get profile: " ++ thrownMessage e⟩, [.profile])
  | .returns p =>
    if isNullish p then
      (⟨"❌ Failed to get profile: " ++ typeErrorMsg p ("name")⟩, [.profile])
    else
      (⟨"👤 Profile Information\n\n" ++
        "Name: " ++ renderValue (jsOr (getField p ("name")) (.vStr "N/A")) ++ "\n" ++
        "Email: " ++ renderValue (jsOr (getField p ("email")) (.vStr "N/A")) ++ "\n" ++
        "Country: " ++ renderValue (jsOr (getField p ("country")) (.vStr "N/A")) ++ "\n" ++
        "Phone: " ++ renderValue (jsOr (getField p ("phone")) (.vStr "N/A")) ++ "\n" ++
        "Environment: " ++ cfg.environment ++ "\n" ++
        "Retrieved: " ++ now⟩, [.profile])

/-- `movements.rows?.length` (optional chaining then a length read). -/
def optLen (v : Value) : Value := if isNullish v then .vUndefined else jsLength v

/-- `handleGetMovementList`. -/
def handleGetMovementList (args : Value) (client : Client)
    (cfg : TropiPayConfig) (now : String) : ToolResponse × List RemoteCall :=
  let limit := jsOr (optGet args ("limit")) (.vNum 10)
  let offset := jsOr (optGet args ("offset")) (.vNum 0)
  let call := RemoteCall.movements limit offset
  match client call with
  | .throws e =>
    (⟨"❌ Failed to get movements: " ++ thrownMessage e⟩, [call])
  | .returns m =>
    let noneFound : ToolResponse :=
      ⟨"📋 No movements found\n\nEnvironment: " ++ cfg.environment⟩
    if ¬ truthy m then (noneFound, [call])
    else if ¬ truthy (getField m ("rows")) then (noneFound, [call])
    else
      match jsLength (getField m ("rows")) with
      | .vNum 0 => (noneFound, [call])
      | _ =>
        (⟨"📋 Account Movements Data (" ++
          renderValue (jsOr (getField m ("count")) (.vNum 0)) ++
          " total items, showing " ++
          renderValue (jsOr (optLen (getField m ("rows"))) (.vNum 0)) ++ ")\n\n" ++
          "Environment: " ++ cfg.environment ++ "\n" ++
          "Retrieved: " ++ now ++ "\n\n" ++
          "💡 **Tip**: Use the \x27tropipay_movements_schema\x27 prompt for detailed field explanations.\n\n" ++
          "**Raw Data (JSON):**\n```json\n" ++
          renderValue (jsOr (optGet m ("rows")) (.vArr [])) ++ "\n```"⟩, [call])

/-- The per-account projection (`cleanAccounts`) in `handleGetAccounts`. -/
def cleanAccount (a : Value) : Value :=
  .vObj [
    ("id", getField a ("id")),
    ("alias", getField a ("alias")),
    ("balance", getField a ("balance")),
    ("pendingIn", getField a ("pendingIn")),
    ("pendingOut", getField a ("pendingOut")),
    ("accountNumber", getField a ("accountNumber")),
    ("currency", getField a ("currency")),
    ("type", getField a ("type")),
    ("state", getField a ("state")),
    ("isDefault", getField a ("isDefault"))]

/-- Mapping `cleanAccount` over the fetched accounts; a `null`/`undefined`
element raises a TypeError at `account.id`. -/
def cleanAccounts : List Value → Except ThrownError (List Value)
| [] => .ok []
| a :: rest =>
  if isNullish a then .error (.jsError (typeErrorMsg a ("id")))
  else
    match cleanAccounts rest with
    | .ok cs => .ok (cleanAccount a :: cs)
    | .error e => .error e

/-- The catch-block text of `handleGetAccounts`. -/
def accountsCatchText (msg : String) (cfg : TropiPayConfig) : String :=
  "❌ Failed to retrieve TropiPay accounts\n\n" ++
  "Error: " ++ msg ++ "\n\n" ++
  "📝 Possible causes:\n" ++
  "- Invalid or expired authentication credentials\n" ++
  "- Insufficient permissions to access account information\n" ++
  "- API endpoint not available in current environment\n" ++
  "- Network connectivity issues\n" ++
  "- The tropipayjs library method signature may have changed\n\n" ++
  "🔧 Technical details:\n" ++
  "Environment: " ++ cfg.environment ++ "\n" ++
  "Method attempted: client.accounts.list()"

/-- `handleGetAccounts` (tool `get_accounts_list`). -/
def handleGetAccounts (client : Client) (cfg : TropiPayConfig)
    (now : String) : ToolResponse × List RemoteCall :=
  let noAccounts : ToolResponse :=
    ⟨"🏦 No TropiPay accounts found\n\nThis could mean:\n- No accounts are configured for this user\n- The user doesn\x27t have permission to view accounts\n- The API endpoint is not available\n\nEnvironment: " ++
      cfg.environment⟩
  match client .accountsList with
  | .throws e =>
    (⟨accountsCatchText (thrownMessage e) cfg⟩, [.accountsList])
  | .returns a =>
    match a with
    | .vArr [] => (noAccounts, [.accountsList])
    | .vArr es =>
      match cleanAccounts es with
      | .error e => (⟨accountsCatchText (thrownMessage e) cfg⟩, [.accountsList])
      | .ok cs =>
        (⟨"🏦 TropiPay Accounts Data (" ++ toString es.length ++
          " accounts found)\n\n" ++
          "Environment: " ++ cfg.environment ++ "\n" ++
          "Retrieved: " ++ now ++ "\n\n" ++
          "💡 **Tip**: Use the \x27tropipay_accounts_schema\x27 prompt for detailed field explanations.\n\n" ++
          "**Raw Data (JSON):**\n```json\n" ++ jsonCompact (.vArr cs) ++
          "\n```"⟩, [.accountsList])
    | _ => (noAccounts, [.accountsList])

/-- The catch-block text of `handleListDepositAccounts`. -/
def depositListCatchText (msg : String) (cfg : TropiPayConfig) : String :=
  "❌ Failed to retrieve TropiPay deposit accounts\n\n" ++
  "Error: " ++ msg ++ "\n\n" ++
  "📝 Possible causes:\n" ++
  "- Invalid or expired authentication credentials\n" ++
  "- Insufficient permissions to access deposit account information\n" ++
  "- API endpoint not available in current environment\n" ++
  "- Network connectivity issues\n" ++
  "- The tropipayjs library method signature may have changed\n\n" ++
  "🔧 Technical details:\n" ++
  "Environment: " ++ cfg.environment ++ "\n" ++
  "Method attempted: client.depositAccounts.list()"

/-- `handleListDepositAccounts`. -/
def handleListDepositAccounts (client : Client) (cfg : TropiPayConfig)
    (now : String) : ToolResponse × List RemoteCall :=
  match client .depositAccountsList with
  | .throws e =>
    (⟨depositListCatchText (thrownMessage e) cfg⟩, [.depositAccountsList])
  | .returns d =>
    match optLen (optGet d ("rows")) with
    | .vNum 0 =>
      (⟨"🏦 No deposit accounts found\n\nThis could mean:\n- No deposit accounts are configured for this user\n- The user doesn\x27t have permission to view deposit accounts\n- The API endpoint is not available\n\nEnvironment: " ++
        cfg.environment⟩, [.depositAccountsList])
    | _ =>
      if isNullish d then
        (⟨depositListCatchText (typeErrorMsg d ("rows")) cfg⟩,
          [.depositAccountsList])
      else
        (⟨"🏦 TropiPay Deposit Accounts Data (" ++
          (if isArray (getField d ("rows")) then
            renderValue (jsLength (getField d ("rows")))
          else ("0")) ++ " accounts found)\n\n" ++
          "Environment: " ++ cfg.environment ++ "\n" ++
          "Retrieved: " ++ now ++ "\n\n" ++
          "💡 **Tip**: Use the \x27tropipay_accounts_schema\x27 prompt for detailed field explanations.\n\n" ++
          "**Raw Data (JSON):**\n```json\n" ++ jsonPretty d ++ "\n```"⟩,
          [.depositAccountsList])

/-! ### `handleCreatePaymentCard` (tool `create_paymentcard`) -/

/-- The handler's `requiredFields` record, in insertion order. -/
def cpRequiredFields : List (String × String) := [
  ("description", "Extra description of what is being paid"),
  ("concept", "Payment concept/title"),
  ("amount", "Payment amount (in cents, e.g., 3000 = $30.00)"),
  ("currency", "Payment currency (allowed only : USD, EUR, USDC)")]

/-- A string whose `trim()` is empty, i.e. every character is whitespace. -/
def isBlank (s : String) : Bool := s.toList.all Char.isWhitespace

/-- The required-field test: the value is `undefined`, `null`, or a string
that trims to empty. -/
def isMissingVal : Value → Bool
| .vUndefined => true
| .vNull => true
| .vStr s => isBlank s
| _ => false

/-- The `missingFields` lines collected by the required-field check. -/
def cpMissingEntries (args : Value) : List String :=
  (cpRequiredFields.filter (fun fd => isMissingVal (getField args fd.1))).map
    (fun fd => "- **" ++ fd.1 ++ "**: " ++ fd.2)

/-- The join of the missing-field lines with newline separators. -/
def joinLines : List String → String
| [] => ""
| [x] => x
| x :: xs => x ++ "\n" ++ joinLines xs

/-- The missing-required-fields response text. -/
def cpMissingText (args : Value) : String :=
  "❌ Missing Required Fields for Payment Card Creation\n\n" ++
  "The following mandatory fields are missing or empty:\n\n" ++
  joinLines (cpMissingEntries args) ++ "\n\n" ++
  "📝 **Please provide all required fields:**\n\n" ++
  "Example usage:\n```\n" ++
  "\x7b\n" ++
  "  \"concept\": \"Product Purchase\",\n" ++
  "  \"amount\": 5000,\n" ++
  "  \"currency\": \"USD\",\n" ++
  "  \"description\": \"Purchase of premium service\", // optional\n" ++
  "\x7d\n```\n\n" ++
  "💡 **Note**: Amount should be in cents (e.g., 5000 = $50.00)"

/-- `x !== undefined ? x : d` for the argument field `k`. -/
def defaulted (args : Value) (k : String) (d : Value) : Value :=
  let v := getField args k
  if isUndefinedV v then d else v

/-- The `paymentCardData` payload built once all required fields are
present (lines 272-288 of `src/tools/handlers.ts`). -/
def cpPayload (args : Value) (now : String) : Value :=
  .vObj [
    ("reference", getField args ("reference")),
    ("concept", getField args ("concept")),
    ("amount", getField args ("amount")),
    ("currency", getField args ("currency")),
    ("singleUse", defaulted args ("singleUse") (.vBool false)),
    ("description", defaulted args ("description") (.vStr "")),
    ("favorite", defaulted args ("favorite") (.vBool false)),
    ("expirationDays", defaulted args ("expirationDays") (.vNum 0)),
    ("reasonId", defaulted args ("reasonId") (.vNum 21)),
    ("lang", defaulted args ("lang") (.vStr "es")),
    ("urlSuccess", defaulted args ("urlSuccess") (.vStr "")),
    ("urlFailed", defaulted args ("urlFailed") (.vStr "")),
    ("urlNotification", defaulted args ("urlNotification") (.vStr "")),
    ("serviceDate", defaulted args ("serviceDate") (.vStr (isoDatePart now))),
    ("accountId", defaulted args ("accountId") .vNull)]

/-- The catch-block text of `handleCreatePaymentCard`; note the source
renders the thrown value with `JSON.stringify(error)`. -/
def cpCatchText (e : ThrownError) (cfg : TropiPayConfig) : String :=
  "❌ Failed to create payment card\n\n" ++
  "Error: " ++ jsonStringifyThrown e ++ "\n\n" ++
  "🔧 Technical details:\n" ++
  "Environment: " ++ cfg.environment ++ "\n" ++
  "Method attempted: client.paymentCards.create()"

/-- `(result.amount! / 100).toFixed(2)`.  Integer and `null`/boolean
coercions are modelled; numeric-string coercion is not (no theorem
instantiates a string amount). -/
def toFixed2Cents : Value → String
| .vNum n =>
  (if n < 0 then ("-") else ("")) ++ toString (n.natAbs / 100) ++ "." ++
    (if n.natAbs % 100 < 10 then ("0" ++ toString (n.natAbs % 100))
     else (toString (n.natAbs % 100)))
| .vNull => "0.00"
| .vBool b => if b then ("0.01") else ("0.00")
| _ => "NaN"

/-- The success text of `handleCreatePaymentCard`. -/
def cpSuccessText (args r : Value) (cfg : TropiPayConfig) (now : String) : String :=
  "✅ Payment Card Created Successfully\n\n" ++
  "🎯 **Payment Details:**\n" ++
  "- Paymentcard id: " ++ renderValue (getField r ("id")) ++ "\n" ++
  "- Amount: " ++ toFixed2Cents (getField r ("amount")) ++ " " ++
    renderValue (getField r ("currency")) ++ "\n" ++
  "- Short url: " ++ renderValue (getField r ("shortUrl")) ++ "\n" ++
  "- Reference: " ++ renderValue (getField r ("reference")) ++ "\n" ++
  "- Concept: " ++ renderValue (getField r ("concept")) ++ "\n" ++
  "- Marked as favorite: " ++ renderValue (getField r ("favorite")) ++ "\n" ++
  "- Single use paymentcard: " ++ renderValue (getField r ("singleUse")) ++ "\n" ++
  "- Expiration days: " ++ renderValue (getField r ("expirationDays")) ++ "\n" ++
  "- Reason id: " ++ renderValue (getField r ("reasonId")) ++ "\n" ++
  "- Language: " ++ renderValue (getField r ("lang")) ++ "\n" ++
  "- Url success: " ++ renderValue (getField r ("urlSuccess")) ++ "\n" ++
  "- Url failed: " ++ renderValue (getField r ("urlFailed")) ++ "\n" ++
  "- Url notification: " ++ renderValue (getField r ("urlNotification")) ++ "\n" ++
  "- Service date: " ++ renderValue (getField r ("serviceDate")) ++ "\n" ++
  (if truthy (getField args ("description")) then
    ("- Description: " ++ renderValue (getField args ("description")) ++ "\n")
   else ("")) ++
  "\n📋 **API Response:**\n```json\n" ++ jsonPretty r ++ "\n```\n\n" ++
  "Environment: " ++ cfg.environment ++ "\n" ++
  "Created: " ++ now

/-- `handleCreatePaymentCard`.  Destructuring `null`/`undefined` arguments
or reading a property of a `null` creation result raises a TypeError that
the handler's catch block converts to the failure text. -/
def handleCreatePaymentCard (args : Value) (client : Client)
    (cfg : TropiPayConfig) (now : String) : ToolResponse × List RemoteCall :=
  if isNullish args then
    (⟨cpCatchText (.jsError (destructureMsg ("reference") args)) cfg⟩, [])
  else if ¬ (cpMissingEntries args).isEmpty then
    (⟨cpMissingText args⟩, [])
  else
    let call := RemoteCall.paymentCardsCreate (cpPayload args now)
    match client call with
    | .throws e => (⟨cpCatchText e cfg⟩, [call])
    | .returns r =>
      if isNullish r then
        (⟨cpCatchText (.jsError (typeErrorMsg r ("id"))) cfg⟩, [call])
      else (⟨cpSuccessText args r cfg now⟩, [call])

/-- `handleTestConnection`. -/
def handleTestConnection (client : Client) (cfg : TropiPayConfig)
    (now : String) : ToolResponse × List RemoteCall :=
  match client .getBalance with
  | .throws e =>
    (⟨"❌ Connection test failed: " ++ thrownMessage e⟩, [.getBalance])
  | .returns _ =>
    (⟨"✅ TropiPay Connection Test Successful\n\n" ++
      "Environment: " ++ cfg.environment ++ "\n" ++
      "Base URL: " ++ renderOptStr cfg.baseUrl ++ "\n" ++
      "Library: @yosle/tropipayjs v0.2.1\n" ++
      "Authentication: Valid\n" ++
      "Timestamp: " ++ now⟩, [.getBalance])

/-- `handleListPaymentcards`.  The returned payload is embedded in a
success response unconditionally: no embedded-error inspection happens. -/
def handleListPaymentcards (client : Client) (cfg : TropiPayConfig)
    (now : String) : ToolResponse × List RemoteCall :=
  match client .paymentCardsList with
  | .throws e =>
    (⟨"❌ Failed to list payment cards\n\n" ++
      "Error: " ++ jsonStringifyThrown e ++ "\n\n" ++
      "🔧 Technical details:\n" ++
      "Environment: " ++ cfg.environment ++ "\n" ++
      "Method attempted: client.paymentCards.list()"⟩, [.paymentCardsList])
  | .returns r =>
    (⟨"✅ Payment Cards List Successful\n\n" ++
      "Environment: " ++ cfg.environment ++ "\n" ++
      "Base URL: " ++ renderOptStr cfg.baseUrl ++ "\n" ++
      "Library: @yosle/tropipayjs v0.2.1\n" ++
      "Authentication: Valid\n" ++
      "Timestamp: " ++ now ++ "\n\n" ++
      "📋 **API Response:**\n```json\n" ++ jsonPretty r ++ "\n```"⟩,
      [.paymentCardsList])

/-! ### Beneficiary-creation handlers -/

/-- `x || undefined` (used for optional payload fields). -/
def orUndef (args : Value) (k : String) : Value :=
  jsOr (getField args k) .vUndefined

/-- `result.error || result.code >= 400`: the embedded-error check the
three beneficiary handlers apply to an otherwise-successful payload.  The
`>=` comparison is modelled for numeric codes (a non-numeric `code` field
compares false, as `undefined >= 400` does). -/
def errorIndicated (r : Value) : Bool :=
  truthy (getField r ("error")) ||
    (match getField r ("code") with
     | .vNum c => decide (c ≥ 400)
     | _ => false)

/-- The `depositAccountData` payload of `handleCreateExternalBeneficiary`:
classification fields are fixed constants set by the handler. -/
def extPayload (args : Value) : Value :=
  .vObj [
    ("beneficiaryType", .vNum 2),
    ("type", .vNum 7),
    ("paymentType", .vNum 2),
    ("firstName", getField args ("firstName")),
    ("lastName", getField args ("lastName")),
    ("accountNumber", getField args ("accountNumber")),
    ("currency", getField args ("currency")),
    ("countryDestinationId", orUndef args ("countryDestinationId")),
    ("countryISO", orUndef args ("countryISO")),
    ("alias", orUndef args ("alias")),
    ("email", orUndef args ("email")),
    ("bankName", orUndef args ("bankName")),
    ("swift", orUndef args ("swift")),
    ("userRelationTypeId", jsOr (getField args ("userRelationTypeId")) (.vNum 3)),
    ("documentId", orUndef args ("documentId")),
    ("documentNumber", orUndef args ("documentNumber")),
    ("documentTypeId", orUndef args ("documentTypeId")),
    ("documentExpirationDate", orUndef args ("documentExpirationDate")),
    ("phone", orUndef args ("phone")),
    ("address", orUndef args ("address")),
    ("city", orUndef args ("city")),
    ("province", orUndef args ("province")),
    ("postalCode", orUndef args ("postalCode")),
    ("routingNumber", orUndef args ("routingNumber")),
    ("correspondent", orUndef args ("correspondent")),
    ("state", jsOr (getField args ("state")) (.vNum 0))]

/-- The embedded-error response text shared in shape by the external and
crypto handlers; `head` is the leading failure line. -/
def beneficiaryErrorText (head : String) (r : Value) (cfg : TropiPayConfig) : String :=
  head ++ "\n\n" ++
  "Error: " ++
  renderValue (jsOr (getField r ("message"))
    (if truthy (getField r ("error")) then
      getField (getField r ("error")) ("message")
     else .vStr "Unknown error")) ++ "\n\n" ++
  "🔧 Technical details:\n" ++
  "Code: " ++ renderValue (getField r ("code")) ++ "\n" ++
  "Type: " ++ renderValue (jsOr (optGet (getField r ("error")) ("type")) (.vStr "N/A")) ++ "\n" ++
  "Details: " ++ jsonCompact (jsOr (optGet (getField r ("error")) ("details")) (.vArr [])) ++ "\n" ++
  "Message: " ++
  renderValue (jsOr (optGet (getField r ("error")) ("i18n"))
    (jsOr (optGet (getField r ("error")) ("message")) (.vStr "No additional message"))) ++ "\n\n" ++
  "📋 **API Response:**\n```json\n" ++ jsonPretty r ++ "\n```\n\n" ++
  "Environment: " ++ cfg.environment ++ "\n"

/-- The catch-block text shared in shape by the three beneficiary
handlers. -/
def beneficiaryCatchText (head : String) (e : ThrownError)
    (cfg : TropiPayConfig) : String :=
  head ++ "\n\n" ++
  "Error: " ++ thrownMessageOrJson e ++ "\n\n" ++
  "🔧 Technical details:\n" ++
  "Environment: " ++ cfg.environment ++ "\n" ++
  "Method attempted: client.depositAccounts.create()"

def extFailHead : String := "❌ Failed to create external bank account beneficiary"

/-- `handleCreateExternalBeneficiary`.  Required-field validation throws on
the first missing field; the throw is caught by the handler's own catch
block. -/
def handleCreateExternalBeneficiary (args : Value) (client : Client)
    (cfg : TropiPayConfig) : ToolResponse × List RemoteCall :=
  if isNullish args then
    (⟨beneficiaryCatchText extFailHead
      (.jsError (destructureMsg ("alias") args)) cfg⟩, [])
  else if ¬ truthy (getField args ("firstName")) then
    (⟨beneficiaryCatchText extFailHead (.jsError ("First name is required")) cfg⟩, [])
  else if ¬ truthy (getField args ("lastName")) then
    (⟨beneficiaryCatchText extFailHead (.jsError ("Last name is required")) cfg⟩, [])
  else if ¬ truthy (getField args ("accountNumber")) then
    (⟨beneficiaryCatchText extFailHead (.jsError ("Account number is required")) cfg⟩, [])
  else if ¬ truthy (getField args ("currency")) then
    (⟨beneficiaryCatchText extFailHead (.jsError ("Currency is required")) cfg⟩, [])
  else if ¬ truthy (getField args ("countryDestinationId")) ∧
      ¬ truthy (getField args ("countryISO")) then
    (⟨beneficiaryCatchText extFailHead
      (.jsError ("Either countryDestinationId or countryISO is required")) cfg⟩, [])
  else
    let call := RemoteCall.depositAccountsCreate (extPayload args)
    match client call with
    | .throws e => (⟨beneficiaryCatchText extFailHead e cfg⟩, [call])
    | .returns r =>
      if isNullish r then
        (⟨beneficiaryCatchText extFailHead
          (.jsError (typeErrorMsg r ("error"))) cfg⟩, [call])
      else if errorIndicated r then
        (⟨beneficiaryErrorText extFailHead r cfg⟩, [call])
      else
        (⟨"✅ External Bank Account Beneficiary Created Successfully\n\n" ++
          "🏦 **Beneficiary Details:**\n" ++
          "- **Name**: " ++ renderValue (getField args ("firstName")) ++ " " ++
            renderValue (getField args ("lastName")) ++ "\n" ++
          "- **Account**: " ++ renderValue (getField args ("accountNumber")) ++ "\n" ++
          "- **Currency**: " ++ renderValue (getField args ("currency")) ++ "\n" ++
          "- **Bank**: " ++ renderValue (jsOr (getField args ("bankName")) (.vStr "Not specified")) ++ "\n" ++
          "- **SWIFT**: " ++ renderValue (jsOr (getField args ("swift")) (.vStr "Not specified")) ++ "\n\n" ++
          "📋 **API Response:**\n```json\n" ++ jsonPretty r ++ "\n```\n\n" ++
          "Environment: " ++ cfg.environment ++ "\n"⟩, [call])

/-- The `depositAccountData` payload of `handleCreateInternalBeneficiary`. -/
def intPayload (args : Value) : Value :=
  .vObj [
    ("beneficiaryType", .vNum 1),
    ("type", .vNum 9),
    ("alias", getField args ("alias")),
    ("searchBy", jsOr (getField args ("searchBy")) (.vNum 1)),
    ("searchValue", getField args ("searchValue")),
    ("firstName", orUndef args ("firstName")),
    ("lastName", orUndef args ("lastName")),
    ("email", jsOr (getField args ("email")) (getField args ("searchValue"))),
    ("accountNumber", orUndef args ("accountNumber")),
    ("userRelationTypeId", jsOr (getField args ("userRelationTypeId")) (.vNum 3)),
    ("state", jsOr (getField args ("state")) (.vNum 0))]

def intFailHead : String := "❌ Failed to create internal TropiPay beneficiary"

/-- `handleCreateInternalBeneficiary`. -/
def handleCreateInternalBeneficiary (args : Value) (client : Client)
    (cfg : TropiPayConfig) : ToolResponse × List RemoteCall :=
  if isNullish args then
    (⟨beneficiaryCatchText intFailHead
      (.jsError (destructureMsg ("alias") args)) cfg⟩, [])
  else if ¬ truthy (getField args ("alias")) then
    (⟨beneficiaryCatchText intFailHead (.jsError ("Alias is required")) cfg⟩, [])
  else if ¬ truthy (getField args ("searchValue")) then
    (⟨beneficiaryCatchText intFailHead
      (.jsError ("Search value (email) is required")) cfg⟩, [])
  else
    let call := RemoteCall.depositAccountsCreate (intPayload args)
    match client call with
    | .throws e => (⟨beneficiaryCatchText intFailHead e cfg⟩, [call])
    | .returns r =>
      if isNullish r then
        (⟨beneficiaryCatchText intFailHead
          (.jsError (typeErrorMsg r ("error"))) cfg⟩, [call])
      else if errorIndicated r then
        (⟨intFailHead ++ "\n\n" ++
          "📋 **API Response:**\n```json\n" ++ jsonPretty r ++ "\n```\n\n" ++
          "Environment: " ++ cfg.environment ++ "\n"⟩, [call])
      else
        (⟨"✅ Internal TropiPay Beneficiary Created Successfully\n\n" ++
          "🏦 **Beneficiary Details:**\n" ++
          "- **Alias**: " ++ renderValue (getField args ("alias")) ++ "\n" ++
          "- **Email**: " ++ renderValue (getField args ("searchValue")) ++ "\n\n" ++
          "📋 **API Response:**\n```json\n" ++ jsonPretty r ++ "\n```\n\n" ++
          "Environment: " ++ cfg.environment ++ "\n"⟩, [call])

/-- The `depositAccountData` payload of `handleCreateCryptoBeneficiary`. -/
def cryptoPayload (args : Value) : Value :=
  .vObj [
    ("beneficiaryType", .vNum 3),
    ("type", .vNum 12),
    ("firstName", getField args ("firstName")),
    ("lastName", getField args ("lastName")),
    ("accountNumber", getField args ("accountNumber")),
    ("currency", getField args ("currency")),
    ("network", getField args ("network")),
    ("alias", orUndef args ("alias")),
    ("userRelationTypeId", jsOr (getField args ("userRelationTypeId")) (.vNum 3)),
    ("state", jsOr (getField args ("state")) (.vNum 0))]

def cryptoFailHead : String := "❌ Failed to create crypto wallet beneficiary"

/-- `handleCreateCryptoBeneficiary`. -/
def handleCreateCryptoBeneficiary (args : Value) (client : Client)
    (cfg : TropiPayConfig) : ToolResponse × List RemoteCall :=
  if isNullish args then
    (⟨beneficiaryCatchText cryptoFailHead
      (.jsError (destructureMsg ("alias") args)) cfg⟩, [])
  else if ¬ truthy (getField args ("firstName")) then
    (⟨beneficiaryCatchText cryptoFailHead (.jsError ("First name is required")) cfg⟩, [])
  else if ¬ truthy (getField args ("lastName")) then
    (⟨beneficiaryCatchText cryptoFailHead (.jsError ("Last name is required")) cfg⟩, [])
  else if ¬ truthy (getField args ("accountNumber")) then
    (⟨beneficiaryCatchText cryptoFailHead
      (.jsError ("Account number (wallet address) is required")) cfg⟩, [])
  else if ¬ truthy (getField args ("currency")) then
    (⟨beneficiaryCatchText cryptoFailHead (.jsError ("Currency is required")) cfg⟩, [])
  else if ¬ truthy (getField args ("network")) then
    (⟨beneficiaryCatchText cryptoFailHead (.jsError ("Network is required")) cfg⟩, [])
  else
    let call := RemoteCall.depositAccountsCreate (cryptoPayload args)
    match client call with
    | .throws e => (⟨beneficiaryCatchText cryptoFailHead e cfg⟩, [call])
    | .returns r =>
      if isNullish r then
        (⟨beneficiaryCatchText cryptoFailHead
          (.jsError (typeErrorMsg r ("error"))) cfg⟩, [call])
      else if errorIndicated r then
        (⟨beneficiaryErrorText cryptoFailHead r cfg⟩, [call])
      else
        (⟨"✅ Crypto Wallet Beneficiary Created Successfully\n\n" ++
          "🏦 **Beneficiary Details:**\n" ++
          "- **Name**: " ++ renderValue (getField args ("firstName")) ++ " " ++
            renderValue (getField args ("lastName")) ++ "\n" ++
          "- **Wallet**: " ++ renderValue (getField args ("accountNumber")) ++ "\n" ++
          "- **Currency**: " ++ renderValue (getField args ("currency")) ++ "\n" ++
          "- **Network**: " ++ renderValue (getField args ("network")) ++ "\n\n" ++
          "📋 **API Response:**\n```json\n" ++ jsonPretty r ++ "\n```\n\n" ++
          "Environment: " ++ cfg.environment ++ "\n"⟩, [call])

/-! ## The monolithic entry point (`src/index.ts`)

The `CallToolRequestSchema` handler acquires the client, switches on the
tool name (seven inline case bodies) and converts anything thrown —
including the `Unknown tool` error of the `default` branch and the
missing-credentials error of `getTropiPayClient` — into a normal text
response at the outer catch.  `credsOk` stands for whether the memoized
client accessor succeeds. -/

/-- The `get_account_balance` case body of the entry-point dispatcher. -/
def idxGetAccountBalance (client : Client) (cfg : TropiPayConfig)
    (now : String) : ToolResponse :=
  match client .getBalance with
  | .throws e => ⟨"❌ Failed to get balance: " ++ thrownMessage e⟩
  | .returns b =>
    if isNullish b then
      ⟨"❌ Failed to get balance: " ++ typeErrorMsg b ("balance")⟩
    else
      ⟨"💰 Current Default Account Balance\n\n" ++
        "Balance: $" ++ renderValue (getField b ("balance")) ++ "\n" ++
        "Environment: " ++ cfg.environment ++ "\n" ++
        "Retrieved: " ++ now⟩

/-- The `cleanMovements` projection of the `get_movement_list` case body. -/
def idxCleanMovements (m : Value) : Value :=
  .vObj ([("count", jsOr (getField m ("count")) (.vNum 0)),
          ("rows", jsOr (getField m ("rows")) (.vArr []))] ++
    (if isUndefinedV (getField m ("offset")) then []
     else [("offset", getField m ("offset"))]) ++
    (if isUndefinedV (getField m ("limit")) then []
     else [("limit", getField m ("limit"))]))

/-- The `get_movement_list` case body of the entry-point dispatcher.  The
inner serialization fallback is unreachable in the model because the
embedded `JSON.stringify` is total. -/
def idxGetMovementList (args : Value) (client : Client)
    (cfg : TropiPayConfig) (now : String) : ToolResponse :=
  let limit := jsOr (optGet args ("limit")) (.vNum 10)
  let offset := jsOr (optGet args ("offset")) (.vNum 0)
  match client (.movements limit offset) with
  | .throws e => ⟨"❌ Failed to get movements: " ++ thrownMessage e⟩
  | .returns m =>
    let noneFound : ToolResponse :=
      ⟨"📋 No movements found\n\nEnvironment: " ++ cfg.environment⟩
    if ¬ truthy m then noneFound
    else if ¬ truthy (getField m ("rows")) then noneFound
    else
      match jsLength (getField m ("rows")) with
      | .vNum 0 => noneFound
      | _ =>
        ⟨"📋 Account Movements Data (" ++
          renderValue (jsOr (getField m ("count")) (.vNum 0)) ++
          " total items, showing " ++
          renderValue (jsOr (optLen (getField m ("rows"))) (.vNum 0)) ++ ")\n\n" ++
          "Environment: " ++ cfg.environment ++ "\n" ++
          "Retrieved: " ++ now ++ "\n\n" ++
          "💡 **Tip**: Use the \x27tropipay_movements_schema\x27 prompt for detailed field explanations.\n\n" ++
          "**Raw Data (JSON):**\n```json\n" ++
          jsonPretty (idxCleanMovements m) ++ "\n```"⟩

/-- The per-account projection of the `get_accounts` case body (it also
keeps `createdAt`/`updatedAt`). -/
def idxCleanAccount (a : Value) : Value :=
  .vObj [
    ("id", getField a ("id")),
    ("alias", getField a ("alias")),
    ("balance", getField a ("balance")),
    ("pendingIn", getField a ("pendingIn")),
    ("pendingOut", getField a ("pendingOut")),
    ("accountNumber", getField a ("accountNumber")),
    ("currency", getField a ("currency")),
    ("type", getField a ("type")),
    ("state", getField a ("state")),
    ("isDefault", getField a ("isDefault")),
    ("createdAt", getField a ("createdAt")),
    ("updatedAt", getField a ("updatedAt"))]

/-- Mapping `idxCleanAccount` over the fetched accounts. -/
def idxCleanAccountsList : List Value → Except ThrownError (List Value)
| [] => .ok []
| a :: rest =>
  if isNullish a then .error (.jsError (typeErrorMsg a ("id")))
  else
    match idxCleanAccountsList rest with
    | .ok cs => .ok (idxCleanAccount a :: cs)
    | .error e => .error e

/-- The `get_accounts` case body of the entry-point dispatcher. -/
def idxGetAccounts (client : Client) (cfg : TropiPayConfig)
    (now : String) : ToolResponse :=
  let noAccounts : ToolResponse :=
    ⟨"🏦 No TropiPay accounts found\n\nThis could mean:\n- No accounts are configured for this user\n- The user doesn\x27t have permission to view accounts\n- The API endpoint is not available\n\nEnvironment: " ++
      cfg.environment⟩
  match client .accountsList with
  | .throws e => ⟨accountsCatchText (thrownMessage e) cfg⟩
  | .returns a =>
    match a with
    | .vArr [] => noAccounts
    | .vArr es =>
      match idxCleanAccountsList es with
      | .error e => ⟨accountsCatchText (thrownMessage e) cfg⟩
      | .ok cs =>
        ⟨"🏦 TropiPay Accounts Data (" ++ toString es.length ++
          " accounts found)\n\n" ++
          "Environment: " ++ cfg.environment ++ "\n" ++
          "Retrieved: " ++ now ++ "\n\n" ++
          "💡 **Tip**: Use the \x27tropipay_accounts_schema\x27 prompt for detailed field explanations.\n\n" ++
          "**Raw Data (JSON):**\n```json\n" ++ jsonCompact (.vArr cs) ++
          "\n```"⟩
    | _ => noAccounts

/-- The entry-point dispatcher's `requiredFields` for `create_paymentcard`
(this variant requires `reference` instead of `description`). -/
def idxCpRequiredFields : List (String × String) := [
  ("reference", "Unique reference identifier for the payment"),
  ("concept", "Payment concept/title"),
  ("amount", "Payment amount (in cents, e.g., 3000 = $30.00)"),
  ("currency", "Payment currency (USD, EUR, etc.)")]

def idxCpMissingEntries (args : Value) : List String :=
  (idxCpRequiredFields.filter (fun fd => isMissingVal (getField args fd.1))).map
    (fun fd => "- **" ++ fd.1 ++ "**: " ++ fd.2)

def idxCpMissingText (args : Value) : String :=
  "❌ Missing Required Fields for Payment Card Creation\n\n" ++
  "The following mandatory fields are missing or empty:\n\n" ++
  joinLines (idxCpMissingEntries args) ++ "\n\n" ++
  "📝 **Please provide all required fields:**\n\n" ++
  "Example usage:\n```\n" ++
  "\x7b\n" ++
  "  \"reference\": \"my-payment-001\",\n" ++
  "  \"concept\": \"Product Purchase\",\n" ++
  "  \"amount\": 5000,\n" ++
  "  \"currency\": \"USD\",\n" ++
  "  \"description\": \"Purchase of premium service\", // optional\n" ++
  "  \"singleUse\": \"true\", // optional\n" ++
  "  \"expirationDays\": 7 // optional\n" ++
  "\x7d\n```\n\n" ++
  "💡 **Note**: Amount should be in cents (e.g., 5000 = $50.00)"

/-- A conditional spread `...(x && { k: x })`: the field is present only
when the argument value is truthy. -/
def condField (args : Value) (k : String) : List (String × Value) :=
  if truthy (getField args k) then [(k, getField args k)] else []

/-- The `paymentCardData` payload of the entry-point variant: optional
fields are included only when truthy — no defaults are injected. -/
def idxCpPayload (args : Value) : Value :=
  .vObj ([
    ("reference", getField args ("reference")),
    ("concept", getField args ("concept")),
    ("amount", getField args ("amount")),
    ("currency", getField args ("currency"))] ++
    condField args ("description") ++
    condField args ("favorite") ++
    condField args ("singleUse") ++
    condField args ("expirationDays") ++
    condField args ("reasonId") ++
    condField args ("lang") ++
    condField args ("urlSuccess") ++
    condField args ("urlFailed") ++
    condField args ("urlNotification") ++
    condField args ("serviceDate") ++
    condField args ("directPayment"))

def idxCpCatchText (e : ThrownError) (cfg : TropiPayConfig) : String :=
  "❌ Failed to create payment card\n\n" ++
  "Error: " ++ thrownMessage e ++ "\n\n" ++
  "📝 Possible causes:\n" ++
  "- Invalid card details (PAN, CVV, expiration date)\n" ++
  "- Insufficient permissions to create payment cards\n" ++
  "- API endpoint not available in current environment\n" ++
  "- Network connectivity issues\n" ++
  "- Invalid card number format or expired card\n\n" ++
  "🔧 Technical details:\n" ++
  "Environment: " ++ cfg.environment ++ "\n" ++
  "Method attempted: client.paymentCards.create()"

/-- The `create_paymentcard` case body of the entry-point dispatcher
(`const args = request.params.arguments || {}`). -/
def idxCreatePaymentCard (args0 : Value) (client : Client)
    (cfg : TropiPayConfig) (now : String) : ToolResponse :=
  let args := jsOr args0 (.vObj [])
  if ¬ (idxCpMissingEntries args).isEmpty then ⟨idxCpMissingText args⟩
  else
    match client (.paymentCardsCreate (idxCpPayload args)) with
    | .throws e => ⟨idxCpCatchText e cfg⟩
    | .returns r =>
      ⟨"✅ Payment Card Created Successfully\n\n" ++
        "🎯 **Payment Details:**\n" ++
        "- Reference: " ++ renderValue (getField args ("reference")) ++ "\n" ++
        "- Concept: " ++ renderValue (getField args ("concept")) ++ "\n" ++
        "- Amount: " ++ toFixed2Cents (getField args ("amount")) ++ " " ++
          renderValue (getField args ("currency")) ++ "\n" ++
        "- Currency: " ++ renderValue (getField args ("currency")) ++ "\n" ++
        (if truthy (getField args ("description")) then
          ("- Description: " ++ renderValue (getField args ("description")) ++ "\n")
         else ("")) ++
        "\n📋 **API Response:**\n```json\n" ++ jsonPretty r ++ "\n```\n\n" ++
        "Environment: " ++ cfg.environment ++ "\n" ++
        "Created: " ++ now⟩

/-- The tool names the entry-point dispatcher recognizes. -/
def knownIndexTools : List String :=
  ["get_account_balance", "get_profile_data", "get_movement_list",
   "get_accounts", "list_deposit_accounts", "create_paymentcard",
   "test_connection"]

/-- The `CallToolRequestSchema` handler of `src/index.ts`: client
acquisition, then dispatch by tool name; the `default` branch throws
`Unknown tool: <name>` and the outer catch renders any thrown error as a
normal `❌` text response.  The `get_profile_data`, `list_deposit_accounts`
and `test_connection` case bodies are textually identical to the modular
handlers, which are reused here. -/
def idxCallTool (name : String) (args : Value) (credsOk : Bool)
    (client : Client) (cfg : TropiPayConfig) (now : String) : ToolResponse :=
  if ¬ credsOk then ⟨"❌ " ++ credsErrorMsg⟩
  else if name = "get_account_balance" then idxGetAccountBalance client cfg now
  else if name = "get_profile_data" then (handleGetProfileData client cfg now).1
  else if name = "get_movement_list" then idxGetMovementList args client cfg now
  else if name = "get_accounts" then idxGetAccounts client cfg now
  else if name = "list_deposit_accounts" then
    (handleListDepositAccounts client cfg now).1
  else if name = "create_paymentcard" then idxCreatePaymentCard args client cfg now
  else if name = "test_connection" then (handleTestConnection client cfg now).1
  else ⟨"❌ " ++ ("Unknown tool: " ++ name)⟩

/-! ## The `tropipay://config` resource -/

/-- A `string | undefined` value as a JSON object field (an absent
environment variable is dropped by `JSON.stringify`). -/
def optValue : Option String → Value
| none => .vUndefined
| some s => .vStr s

/-- The config-resource text of `src/index.ts` (lines 177-191):
`clientInitialized` reflects the module-level client slot. -/
def configResourceText (cfg : TropiPayConfig) (clientInitialized : Bool) : String :=
  jsonCompact (.vObj [
    ("environment", .vStr cfg.environment),
    ("baseUrl", optValue cfg.baseUrl),
    ("hasCredentials", .vBool (optTruthy cfg.clientId && optTruthy cfg.clientSecret)),
    ("clientId", .vStr (if optTruthy cfg.clientId then
      ((cfg.clientId.getD ("")).take 8 ++ "...") else ("Not configured"))),
    ("libraryVersion", .vStr "@yosle/tropipayjs v0.2.1"),
    ("clientInitialized", .vBool clientInitialized)])

/-- The config-resource text of the modular resource handler
(`handleResourceRead`, `config` case). -/
def configResourceTextModular (cfg : TropiPayConfig) : String :=
  jsonCompact (.vObj [
    ("environment", .vStr cfg.environment),
    ("baseUrl", .vStr (match cfg.baseUrl with
      | some s =>
        if s = "" then
          ((if cfg.environment = "production" then ("https://www.tropipay.com")
            else ("https://tropipay-dev.herokuapp.com")) ++ "/api/v2")
        else s
      | none =>
        ((if cfg.environment = "production" then ("https://www.tropipay.com")
          else ("https://tropipay-dev.herokuapp.com")) ++ "/api/v2"))),
    ("clientId", .vStr (if optTruthy cfg.clientId then
      ((cfg.clientId.getD ("")).take 8 ++ "...") else ("Not configured"))),
    ("libraryVersion", .vStr "@yosle/tropipayjs v0.2.1"),
    ("clientInitialized", .vBool (optTruthy cfg.clientId && optTruthy cfg.clientSecret))])

/-! ## String predicates for response texts -/

/-- The text `t` begins with `p`. -/
def strStarts (t p : String) : Prop := p.data <+: t.data

/-- The text `t` contains `m` as a substring. -/
def strHas (t m : String) : Prop := m.data <:+: t.data

instance (t p : String) : Decidable (strStarts t p) :=
  inferInstanceAs (Decidable (p.data <+: t.data))

instance (t m : String) : Decidable (strHas t m) :=
  inferInstanceAs (Decidable (m.data <:+: t.data))

theorem strStarts_of_append (p r : String) : strStarts (p ++ r) p := by
  refine ⟨r.data, ?_⟩
  rw [String.data_append]

theorem strStarts_trans_append (a b p : String) (h : strStarts a p) :
    strStarts (a ++ b) p := by
  obtain ⟨l, hl⟩ := h
  exact ⟨l ++ b.data, by rw [String.data_append, ← hl, List.append_assoc]⟩

theorem strHas_of_parts (a m b : String) : strHas (a ++ m ++ b) m := by
  refine ⟨a.data, b.data, ?_⟩
  rw [String.data_append, String.data_append]

theorem strHas_append_left (a t m : String) (h : strHas t m) :
    strHas (a ++ t) m := by
  obtain ⟨s, u, hsu⟩ := h
  exact ⟨a.data ++ s, u, by
    rw [String.data_append, ← hsu]; simp [List.append_assoc]⟩

theorem strHas_append_right (t b m : String) (h : strHas t m) :
    strHas (t ++ b) m := by
  obtain ⟨s, u, hsu⟩ := h
  exact ⟨s, u ++ b.data, by
    rw [String.data_append, ← hsu]; simp [List.append_assoc]⟩

theorem strStarts_refl (t : String) : strStarts t t := ⟨[], by simp⟩

theorem strHas_of_starts (t p : String) (h : strStarts t p) : strHas t p := by
  obtain ⟨l, hl⟩ := h
  exact ⟨[], l, by simp [← hl]⟩

/-- A member of a `\n`-joined list is a substring of the join. -/
theorem strHas_joinLines (l : List String) (x : String) (hx : x ∈ l) :
    strHas (joinLines l) x := by
  induction l with
  | nil => cases hx
  | cons y ys ih =>
    rcases List.mem_cons.mp hx with rfl | hx
    · cases ys with
      | nil => exact ⟨[], [], by simp [joinLines]⟩
      | cons z zs =>
        have h1 : strStarts (joinLines (x :: z :: zs)) x := by
          show strStarts (x ++ "\n" ++ joinLines (z :: zs)) x
          exact strStarts_trans_append _ _ _ (strStarts_trans_append _ _ _
            (strStarts_refl x))
        exact strHas_of_starts _ _ h1
    · cases ys with
      | nil => cases hx
      | cons z zs =>
        show strHas (y ++ "\n" ++ joinLines (z :: zs)) x
        exact strHas_append_left _ _ _ (ih hx)

/-! ## Shared concrete fixtures for witnesses and counterexamples -/

/-- A sandbox configuration with credentials present. -/
def cfgSandbox : TropiPayConfig :=
  ⟨"sandbox", none, some ("client1234567890"), some ("secretA")⟩

/-- A fixed ISO timestamp standing for the current time. -/
def nowFixed : String := "2026-01-02T03:04:05.000Z"

/-- An oracle whose every call returns an application-level error payload
embedded in an otherwise successful response: `code` 500 and a non-null
`error` field. -/
def clientErrPayload : Client :=
  fun _ => .returns (.vObj [("code", .vNum 500), ("error", .vStr "Service error")])

/-- An oracle whose every call returns an empty JSON object. -/
def clientEmptyObj : Client := fun _ => .returns (.vObj [])

/-- An oracle whose every call throws an `Error` with message `boom`. -/
def clientBoom : Client := fun _ => .throws (.jsError ("boom"))

/-! ## Claim C4: the client accessor singleton -/

/-- Claim C4: the client accessor is a process-wide singleton.  With both
credentials present, the first call constructs and caches a handle and any
later call — even under a changed configuration — returns the identical
cached handle; with either credential absent or empty, the accessor throws
the configuration-error message, returns no handle, and leaves the cached
slot empty. -/
theorem c4_client_singleton (config config2 : TropiPayConfig)
    (hid : optTruthy config.clientId = true)
    (hsec : optTruthy config.clientSecret = true)
    (bad : TropiPayConfig)
    (hbad : optTruthy bad.clientId = false ∨ optTruthy bad.clientSecret = false) :
    (∃ c : Tropipay,
      getTropiPayClient config none = (.ok c, some c) ∧
      getTropiPayClient config2 (some c) = (.ok c, some c)) ∧
    getTropiPayClient bad none = (.error credsErrorMsg, none) := by
  constructor
  · have hcreate : ∃ c, createTropiPayClient config = some c := by
      by_cases hb : optTruthy config.baseUrl = true
      · refine ⟨⟨config.clientId.getD (""), config.clientSecret.getD (""),
          config.baseUrl, none⟩, ?_⟩
        simp [createTropiPayClient, hid, hsec, hb]
      · refine ⟨⟨config.clientId.getD (""), config.clientSecret.getD (""),
          none, some (if config.environment = "production" then ("LIVE")
            else ("SANDBOX"))⟩, ?_⟩
        simp [createTropiPayClient, hid, hsec, hb]
    obtain ⟨c, hc⟩ := hcreate
    exact ⟨c, by unfold getTropiPayClient; rw [hc], rfl⟩
  · have hnone : createTropiPayClient bad = none := by
      unfold createTropiPayClient
      rcases hbad with h | h <;> simp [h]
    unfold getTropiPayClient
    rw [hnone]

/-- Witness for C4 at concrete configurations: valid credentials yield the
same handle twice (even after the environment changes), and a secretless
configuration is rejected with the slot left empty. -/
theorem c4_client_singleton_witness :
    (∃ c : Tropipay,
      getTropiPayClient cfgSandbox none = (.ok c, some c) ∧
      getTropiPayClient ⟨"production", none, some ("other"), some ("x")⟩
        (some c) = (.ok c, some c)) ∧
    getTropiPayClient ⟨"sandbox", none, some ("client1234567890"), none⟩ none =
      (.error credsErrorMsg, none) := by
  refine c4_client_singleton cfgSandbox
    ⟨"production", none, some ("other"), some ("x")⟩ ?_ ?_
    ⟨"sandbox", none, some ("client1234567890"), none⟩ (Or.inr ?_) <;> decide

/-! ## Claims C5 and C9: `get_movement_list` pagination -/

/-- Whatever the remote outcome, `handleGetMovementList` issues exactly one
`movements` call carrying the defaulted limit and offset. -/
theorem movementTrace (args : Value) (client : Client) (cfg : TropiPayConfig)
    (now : String) :
    (handleGetMovementList args client cfg now).2 =
      [.movements (jsOr (optGet args ("limit")) (.vNum 10))
        (jsOr (optGet args ("offset")) (.vNum 0))] := by
  simp only [handleGetMovementList]
  repeat' split
  all_goals rfl

/-- Claim C5: `get_movement_list` invoked with no arguments (an absent
`arguments` map, or an empty one) calls the remote `movements` operation
exactly once, with limit 10 and offset 0. -/
theorem c5_movement_default_call (client : Client) (cfg : TropiPayConfig)
    (now : String) :
    (handleGetMovementList .vUndefined client cfg now).2 =
      [.movements (.vNum 10) (.vNum 0)] ∧
    (handleGetMovementList (.vObj []) client cfg now).2 =
      [.movements (.vNum 10) (.vNum 0)] := by
  constructor <;> rw [movementTrace] <;> rfl

/-- Claim C9: a falsy `limit`/`offset` (including an explicit 0) is
replaced by the defaults 10 and 0, and no clamping to the documented 1-50
range happens: any nonzero numeric limit and offset — however large or
negative — are forwarded to the remote `movements` call unchanged. -/
theorem c9_no_clamping (n m : Int) (hn : n ≠ 0) (hm : m ≠ 0)
    (client : Client) (cfg : TropiPayConfig) (now : String) :
    (handleGetMovementList (.vObj [("limit", .vNum 0), ("offset", .vNum 0)])
      client cfg now).2 = [.movements (.vNum 10) (.vNum 0)] ∧
    (handleGetMovementList (.vObj [("limit", .vNum n), ("offset", .vNum m)])
      client cfg now).2 = [.movements (.vNum n) (.vNum m)] := by
  constructor <;> rw [movementTrace]
  · rfl
  · simp [optGet, getField, jsOr, truthy, hn, hm, List.lookup]

/-- Witness for C9 with a limit of 1000 (far above the documented maximum
of 50) and an offset of -7: both are forwarded unchanged. -/
theorem c9_no_clamping_witness :
    (handleGetMovementList (.vObj [("limit", .vNum 0), ("offset", .vNum 0)])
      clientEmptyObj cfgSandbox nowFixed).2 =
      [.movements (.vNum 10) (.vNum 0)] ∧
    (handleGetMovementList (.vObj [("limit", .vNum 1000), ("offset", .vNum (-7))])
      clientEmptyObj cfgSandbox nowFixed).2 =
      [.movements (.vNum 1000) (.vNum (-7))] :=
  c9_no_clamping 1000 (-7) (by decide) (by decide) clientEmptyObj cfgSandbox
    nowFixed

/-! ## Claim C6: fixed beneficiary classification fields -/

/-- The external-beneficiary handler either makes no remote call or sends
exactly `extPayload args`. -/
theorem extTraceCases (args : Value) (client : Client) (cfg : TropiPayConfig) :
    (handleCreateExternalBeneficiary args client cfg).2 = [] ∨
    (handleCreateExternalBeneficiary args client cfg).2 =
      [.depositAccountsCreate (extPayload args)] := by
  simp only [handleCreateExternalBeneficiary]
  repeat' split
  all_goals first | exact Or.inl rfl | exact Or.inr rfl

/-- The internal-beneficiary handler either makes no remote call or sends
exactly `intPayload args`. -/
theorem intTraceCases (args : Value) (client : Client) (cfg : TropiPayConfig) :
    (handleCreateInternalBeneficiary args client cfg).2 = [] ∨
    (handleCreateInternalBeneficiary args client cfg).2 =
      [.depositAccountsCreate (intPayload args)] := by
  simp only [handleCreateInternalBeneficiary]
  repeat' split
  all_goals first | exact Or.inl rfl | exact Or.inr rfl

/-- The crypto-beneficiary handler either makes no remote call or sends
exactly `cryptoPayload args`. -/
theorem cryptoTraceCases (args : Value) (client : Client) (cfg : TropiPayConfig) :
    (handleCreateCryptoBeneficiary args client cfg).2 = [] ∨
    (handleCreateCryptoBeneficiary args client cfg).2 =
      [.depositAccountsCreate (cryptoPayload args)] := by
  simp only [handleCreateCryptoBeneficiary]
  repeat' split
  all_goals first | exact Or.inl rfl | exact Or.inr rfl

/-- Claim C6: for every invocation of the three beneficiary-creation
tools, every payload actually sent to the remote deposit-account creation
operation carries classification fields fixed by the handler, regardless
of the caller-supplied arguments: external sends `beneficiaryType=2`,
`type=7`, `paymentType=2`; internal sends `beneficiaryType=1`, `type=9`;
crypto sends `beneficiaryType=3`, `type=12`. -/
theorem c6_fixed_classification (args1 args2 args3 : Value) (client : Client)
    (cfg : TropiPayConfig) :
    (∀ p : Value, RemoteCall.depositAccountsCreate p ∈
        (handleCreateExternalBeneficiary args1 client cfg).2 →
      getField p ("beneficiaryType") = .vNum 2 ∧ getField p ("type") = .vNum 7 ∧
        getField p ("paymentType") = .vNum 2) ∧
    (∀ p : Value, RemoteCall.depositAccountsCreate p ∈
        (handleCreateInternalBeneficiary args2 client cfg).2 →
      getField p ("beneficiaryType") = .vNum 1 ∧ getField p ("type") = .vNum 9) ∧
    (∀ p : Value, RemoteCall.depositAccountsCreate p ∈
        (handleCreateCryptoBeneficiary args3 client cfg).2 →
      getField p ("beneficiaryType") = .vNum 3 ∧ getField p ("type") = .vNum 12) := by
  refine ⟨fun p hp => ?_, fun p hp => ?_, fun p hp => ?_⟩
  · rcases extTraceCases args1 client cfg with h | h
    · rw [h] at hp; cases hp
    · rw [h] at hp
      rcases List.mem_singleton.mp hp with hpe
      cases hpe
      exact ⟨rfl, rfl, rfl⟩
  · rcases intTraceCases args2 client cfg with h | h
    · rw [h] at hp; cases hp
    · rw [h] at hp
      rcases List.mem_singleton.mp hp with hpe
      cases hpe
      exact ⟨rfl, rfl⟩
  · rcases cryptoTraceCases args3 client cfg with h | h
    · rw [h] at hp; cases hp
    · rw [h] at hp
      rcases List.mem_singleton.mp hp with hpe
      cases hpe
      exact ⟨rfl, rfl⟩

/-- Valid concrete arguments for the external-beneficiary tool. -/
def extArgsW : Value := .vObj [
  ("firstName", .vStr "Ana"), ("lastName", .vStr "Diaz"),
  ("accountNumber", .vStr "ES9121000418450200051332"),
  ("currency", .vStr "EUR"), ("countryDestinationId", .vNum 1)]

/-- Valid concrete arguments for the internal-beneficiary tool. -/
def intArgsW : Value := .vObj [
  ("alias", .vStr "MR Buchman"), ("searchValue", .vStr "wick@gmail.com")]

/-- Valid concrete arguments for the crypto-beneficiary tool. -/
def cryptoArgsW : Value := .vObj [
  ("firstName", .vStr "John"), ("lastName", .vStr "Doe"),
  ("accountNumber", .vStr "5Hw3k2c4Z5oLWxfTMT8nBnhqWF4SWcAFQLnJTJPzNe2y"),
  ("currency", .vStr "USDC"), ("network", .vStr "SOLANA")]

/-- Witness for C6: concrete valid invocations of all three tools do reach
the remote creation call, and the sent payloads carry the fixed
classification constants. -/
theorem c6_fixed_classification_witness :
    (getField (extPayload extArgsW) ("beneficiaryType") = .vNum 2 ∧
      getField (extPayload extArgsW) ("type") = .vNum 7 ∧
      getField (extPayload extArgsW) ("paymentType") = .vNum 2) ∧
    (getField (intPayload intArgsW) ("beneficiaryType") = .vNum 1 ∧
      getField (intPayload intArgsW) ("type") = .vNum 9) ∧
    (getField (cryptoPayload cryptoArgsW) ("beneficiaryType") = .vNum 3 ∧
      getField (cryptoPayload cryptoArgsW) ("type") = .vNum 12) := by
  have h := c6_fixed_classification extArgsW intArgsW cryptoArgsW
    clientEmptyObj cfgSandbox
  refine ⟨h.1 (extPayload extArgsW) ?_, h.2.1 (intPayload intArgsW) ?_,
    h.2.2 (cryptoPayload cryptoArgsW) ?_⟩
  · have ht : (handleCreateExternalBeneficiary extArgsW clientEmptyObj
        cfgSandbox).2 = [.depositAccountsCreate (extPayload extArgsW)] := rfl
    rw [ht]; exact List.mem_singleton.mpr rfl
  · have ht : (handleCreateInternalBeneficiary intArgsW clientEmptyObj
        cfgSandbox).2 = [.depositAccountsCreate (intPayload intArgsW)] := rfl
    rw [ht]; exact List.mem_singleton.mpr rfl
  · have ht : (handleCreateCryptoBeneficiary cryptoArgsW clientEmptyObj
        cfgSandbox).2 = [.depositAccountsCreate (cryptoPayload cryptoArgsW)] := rfl
    rw [ht]; exact List.mem_singleton.mpr rfl

/-! ## More string-decomposition helpers -/

theorem strAppend_assoc (a b c : String) : (a ++ b) ++ c = a ++ (b ++ c) := by
  apply String.ext
  simp [String.data_append]

theorem strStarts_chunk2 (a b r : String) : strStarts (a ++ (b ++ r)) (a ++ b) := by
  refine ⟨r.data, ?_⟩
  simp [String.data_append]

theorem strStarts_chunk3 (a b c r : String) :
    strStarts (a ++ (b ++ (c ++ r))) (a ++ (b ++ c)) := by
  refine ⟨r.data, ?_⟩
  simp [String.data_append]

/-! ## Claim C3: `create_paymentcard` defaults -/

/-- When its required-field check passes, `handleCreatePaymentCard` issues
exactly one creation call carrying `cpPayload args now`. -/
theorem cpCallTrace (args : Value) (client : Client) (cfg : TropiPayConfig)
    (now : String) (hn : isNullish args = false)
    (hm : (cpMissingEntries args).isEmpty = true) :
    (handleCreatePaymentCard args client cfg now).2 =
      [.paymentCardsCreate (cpPayload args now)] := by
  simp only [handleCreatePaymentCard, hn, hm]
  repeat' split
  all_goals simp_all

/-- The concrete `create_paymentcard` arguments of the claim examples,
with the handler-required `description` added. -/
def cpArgsW : Value := .vObj [
  ("description", .vStr "Test desc"), ("concept", .vStr "Test"),
  ("amount", .vNum 5000), ("currency", .vStr "USD")]

/-- Counterexample for C3 as stated.  First: with only the documented
required fields `concept`/`amount`/`currency` present, the handler makes
no remote call at all (it reports `description` as missing), so no payload
carrying defaults is ever sent.  Second: `description` is part of the
handler's required set, so when the check passes the sent payload carries
the caller-supplied description — never the documented default `""`. -/
theorem c3_counterexample :
    (handleCreatePaymentCard
      (.vObj [("concept", .vStr "Test"), ("amount", .vNum 5000),
        ("currency", .vStr "USD")]) clientEmptyObj cfgSandbox nowFixed).2 = [] ∧
    strStarts (handleCreatePaymentCard
      (.vObj [("concept", .vStr "Test"), ("amount", .vNum 5000),
        ("currency", .vStr "USD")]) clientEmptyObj cfgSandbox nowFixed).1.text
      ("❌ Missing Required Fields") ∧
    (handleCreatePaymentCard cpArgsW clientEmptyObj cfgSandbox nowFixed).2 =
      [.paymentCardsCreate (cpPayload cpArgsW nowFixed)] ∧
    getField (cpPayload cpArgsW nowFixed) ("description") = .vStr "Test desc" ∧
    Value.vStr "Test desc" ≠ Value.vStr "" := by
  refine ⟨rfl, by decide, rfl, rfl, ?_⟩
  intro h
  simp at h

/-- Claim C3 as amended: when `create_paymentcard` is invoked with exactly
the handler's required fields (`description`, `concept`, `amount`,
`currency`) present and none blank, the payload sent to the remote
creation operation carries the documented defaults `singleUse=false`,
`favorite=false`, `expirationDays=0`, `reasonId=21`, `lang="es"`,
`urlSuccess=""`, `urlFailed=""`, `urlNotification=""`,
`serviceDate=<date part of the current ISO timestamp>` and
`accountId=null`, while `description` is the caller-supplied value — the
documented `""` default for `description` is unreachable because the field
is required. -/
theorem c3_amended (d c cur : String) (a : Int)
    (hd : isBlank d = false) (hc : isBlank c = false)
    (hcur : isBlank cur = false)
    (client : Client) (cfg : TropiPayConfig) (now : String)
    (args : Value)
    (hargs : args = .vObj [("description", .vStr d), ("concept", .vStr c),
      ("amount", .vNum a), ("currency", .vStr cur)]) :
    (handleCreatePaymentCard args client cfg now).2 =
      [.paymentCardsCreate (cpPayload args now)] ∧
    getField (cpPayload args now) ("singleUse") = .vBool false ∧
    getField (cpPayload args now) ("favorite") = .vBool false ∧
    getField (cpPayload args now) ("expirationDays") = .vNum 0 ∧
    getField (cpPayload args now) ("reasonId") = .vNum 21 ∧
    getField (cpPayload args now) ("lang") = .vStr "es" ∧
    getField (cpPayload args now) ("urlSuccess") = .vStr "" ∧
    getField (cpPayload args now) ("urlFailed") = .vStr "" ∧
    getField (cpPayload args now) ("urlNotification") = .vStr "" ∧
    getField (cpPayload args now) ("serviceDate") = .vStr (isoDatePart now) ∧
    getField (cpPayload args now) ("accountId") = .vNull ∧
    getField (cpPayload args now) ("description") = .vStr d := by
  subst hargs
  have hmiss : (cpMissingEntries (.vObj [("description", .vStr d),
      ("concept", .vStr c), ("amount", .vNum a),
      ("currency", .vStr cur)])).isEmpty = true := by
    simp [cpMissingEntries, cpRequiredFields, getField, List.lookup,
      isMissingVal, hd, hc, hcur]
  refine ⟨cpCallTrace _ client cfg now rfl hmiss, ?_, ?_, ?_, ?_, ?_, ?_, ?_,
    ?_, ?_, ?_, ?_⟩ <;>
    simp [cpPayload, defaulted, getField, List.lookup, isUndefinedV]

/-- Witness for C3 (amended) at the concrete example arguments. -/
theorem c3_amended_witness :
    (handleCreatePaymentCard cpArgsW clientEmptyObj cfgSandbox nowFixed).2 =
      [.paymentCardsCreate (cpPayload cpArgsW nowFixed)] ∧
    getField (cpPayload cpArgsW nowFixed) ("singleUse") = .vBool false ∧
    getField (cpPayload cpArgsW nowFixed) ("favorite") = .vBool false ∧
    getField (cpPayload cpArgsW nowFixed) ("expirationDays") = .vNum 0 ∧
    getField (cpPayload cpArgsW nowFixed) ("reasonId") = .vNum 21 ∧
    getField (cpPayload cpArgsW nowFixed) ("lang") = .vStr "es" ∧
    getField (cpPayload cpArgsW nowFixed) ("urlSuccess") = .vStr "" ∧
    getField (cpPayload cpArgsW nowFixed) ("urlFailed") = .vStr "" ∧
    getField (cpPayload cpArgsW nowFixed) ("urlNotification") = .vStr "" ∧
    getField (cpPayload cpArgsW nowFixed) ("serviceDate") =
      .vStr (isoDatePart nowFixed) ∧
    getField (cpPayload cpArgsW nowFixed) ("accountId") = .vNull ∧
    getField (cpPayload cpArgsW nowFixed) ("description") = .vStr "Test desc" :=
  c3_amended ("Test desc") ("Test") ("USD") 5000 (by decide) (by decide)
    (by decide) clientEmptyObj cfgSandbox nowFixed cpArgsW rfl

/-! ## Claim C8: the `create_paymentcard` example scenario -/

/-- Counterexample for C8 as stated: the exact example arguments
`{concept: "Test", amount: 5000, currency: "USD"}` never reach the remote
creation call — the handler returns a missing-required-fields error naming
`description`, and issues zero remote calls. -/
theorem c8_counterexample :
    (handleCreatePaymentCard (.vObj [("concept", .vStr "Test"),
      ("amount", .vNum 5000), ("currency", .vStr "USD")])
      clientEmptyObj cfgSandbox nowFixed).2 = [] ∧
    strStarts (handleCreatePaymentCard (.vObj [("concept", .vStr "Test"),
      ("amount", .vNum 5000), ("currency", .vStr "USD")])
      clientEmptyObj cfgSandbox nowFixed).1.text
      ("❌ Missing Required Fields for Payment Card Creation") ∧
    strHas (handleCreatePaymentCard (.vObj [("concept", .vStr "Test"),
      ("amount", .vNum 5000), ("currency", .vStr "USD")])
      clientEmptyObj cfgSandbox nowFixed).1.text ("- **description**:") := by
  refine ⟨rfl, by decide, by decide⟩

/-- Claim C8 as amended: with the handler-required `description` supplied
alongside `{concept: "Test", amount: 5000, currency: "USD"}`, the handler
passes concept, amount and currency through to the creation payload
unchanged, issues exactly one creation call, and renders a success
response whose amount line shows the cent amount 5000 as `50.00` and whose
embedded JSON block is the raw creation response. -/
theorem c8_amended (resFields : List (String × Value))
    (hres : resFields.lookup ("amount") = some (.vNum 5000))
    (client : Client) (cfg : TropiPayConfig) (now : String)
    (hclient : client (.paymentCardsCreate (cpPayload cpArgsW now)) =
      .returns (.vObj resFields)) :
    (handleCreatePaymentCard cpArgsW client cfg now).2 =
      [.paymentCardsCreate (cpPayload cpArgsW now)] ∧
    getField (cpPayload cpArgsW now) ("concept") = .vStr "Test" ∧
    getField (cpPayload cpArgsW now) ("amount") = .vNum 5000 ∧
    getField (cpPayload cpArgsW now) ("currency") = .vStr "USD" ∧
    (handleCreatePaymentCard cpArgsW client cfg now).1.text =
      cpSuccessText cpArgsW (.vObj resFields) cfg now ∧
    strStarts (cpSuccessText cpArgsW (.vObj resFields) cfg now)
      ("✅ Payment Card Created Successfully") ∧
    strHas (cpSuccessText cpArgsW (.vObj resFields) cfg now)
      ("- Amount: 50.00 ") ∧
    strHas (cpSuccessText cpArgsW (.vObj resFields) cfg now)
      (jsonPretty (.vObj resFields)) := by
  have h1 : handleCreatePaymentCard cpArgsW client cfg now =
      (⟨cpSuccessText cpArgsW (.vObj resFields) cfg now⟩,
        [.paymentCardsCreate (cpPayload cpArgsW now)]) := by
    simp only [handleCreatePaymentCard]
    rw [hclient]
    rfl
  have hAmt : getField (.vObj resFields) ("amount") = .vNum 5000 := by
    simp [getField, hres]
  have hfix : toFixed2Cents (getField (.vObj resFields) ("amount")) =
      "50.00" := by rw [hAmt]; decide
  refine ⟨by rw [h1], rfl, rfl, rfl, by rw [h1], ?_, ?_, ?_⟩
  · simp only [cpSuccessText]
    repeat' apply strStarts_trans_append
    decide
  · simp only [cpSuccessText, strAppend_assoc, hfix]
    rw [show ("- Amount: 50.00 " : String) = "- Amount: " ++ ("50.00" ++ " ")
      from by decide]
    rw [show truthy (getField cpArgsW ("description")) = true from rfl]
    simp only [if_true]
    repeat' first
    | exact strHas_of_starts _ _ (strStarts_chunk3 _ _ _ _)
    | apply strHas_append_left
  · simp only [cpSuccessText, strAppend_assoc]
    rw [show truthy (getField cpArgsW ("description")) = true from rfl]
    simp only [if_true]
    repeat' first
    | exact strHas_of_starts _ _ (strStarts_of_append _ _)
    | apply strHas_append_left

/-- A concrete creation response for the C8 witness. -/
def resW : List (String × Value) := [
  ("id", .vStr "pc-1"), ("amount", .vNum 5000), ("currency", .vStr "USD"),
  ("shortUrl", .vStr "https://tppay.me/x")]

/-- An oracle returning `resW` on every call. -/
def clientResW : Client := fun _ => .returns (.vObj resW)

/-- Witness for C8 (amended) at a concrete creation response. -/
theorem c8_amended_witness :
    (handleCreatePaymentCard cpArgsW clientResW cfgSandbox nowFixed).2 =
      [.paymentCardsCreate (cpPayload cpArgsW nowFixed)] ∧
    getField (cpPayload cpArgsW nowFixed) ("concept") = .vStr "Test" ∧
    getField (cpPayload cpArgsW nowFixed) ("amount") = .vNum 5000 ∧
    getField (cpPayload cpArgsW nowFixed) ("currency") = .vStr "USD" ∧
    (handleCreatePaymentCard cpArgsW clientResW cfgSandbox nowFixed).1.text =
      cpSuccessText cpArgsW (.vObj resW) cfgSandbox nowFixed ∧
    strStarts (cpSuccessText cpArgsW (.vObj resW) cfgSandbox nowFixed)
      ("✅ Payment Card Created Successfully") ∧
    strHas (cpSuccessText cpArgsW (.vObj resW) cfgSandbox nowFixed)
      ("- Amount: 50.00 ") ∧
    strHas (cpSuccessText cpArgsW (.vObj resW) cfgSandbox nowFixed)
      (jsonPretty (.vObj resW)) :=
  c8_amended resW rfl clientResW cfgSandbox nowFixed rfl

/-! ## Claim C2: missing-required-field reporting -/

/-- Counterexample for C2 as stated: `create_external_beneficiary` invoked
with an empty arguments object is missing both `firstName` and `lastName`,
yet the error response names only the first (`First name is required`) and
does not mention the missing last name; no remote call is made. -/
theorem c2_counterexample :
    strHas (handleCreateExternalBeneficiary (.vObj []) clientEmptyObj
      cfgSandbox).1.text ("First name is required") ∧
    ¬ strHas (handleCreateExternalBeneficiary (.vObj []) clientEmptyObj
      cfgSandbox).1.text ("Last name is required") ∧
    (handleCreateExternalBeneficiary (.vObj []) clientEmptyObj
      cfgSandbox).2 = [] := by
  refine ⟨by decide, by decide, rfl⟩

/-- Claim C2 as amended: only `create_paymentcard` batch-reports — its
error response enumerates every missing required field in one message and
makes no remote call; the three beneficiary-creation tools fail fast,
reporting exactly the first missing field of their check order
(`firstName` for external and crypto, `alias` for internal) and nothing
else. -/
theorem c2_amended (fields : List (String × Value)) (f desc : String)
    (hmem : (f, desc) ∈ cpRequiredFields)
    (hmiss : isMissingVal (getField (.vObj fields) f) = true)
    (bargs : Value) (hb0 : isNullish bargs = false)
    (hbf : truthy (getField bargs ("firstName")) = false)
    (hbal : truthy (getField bargs ("alias")) = false)
    (client : Client) (cfg : TropiPayConfig) (now : String) :
    (strHas (handleCreatePaymentCard (.vObj fields) client cfg now).1.text
      ("- **" ++ f ++ "**: " ++ desc) ∧
     (handleCreatePaymentCard (.vObj fields) client cfg now).2 = []) ∧
    handleCreateExternalBeneficiary bargs client cfg =
      (⟨beneficiaryCatchText extFailHead
        (.jsError ("First name is required")) cfg⟩, []) ∧
    handleCreateInternalBeneficiary bargs client cfg =
      (⟨beneficiaryCatchText intFailHead
        (.jsError ("Alias is required")) cfg⟩, []) ∧
    handleCreateCryptoBeneficiary bargs client cfg =
      (⟨beneficiaryCatchText cryptoFailHead
        (.jsError ("First name is required")) cfg⟩, []) := by
  have hment : ("- **" ++ f ++ "**: " ++ desc) ∈
      cpMissingEntries (.vObj fields) := by
    unfold cpMissingEntries
    exact List.mem_map_of_mem _ (List.mem_filter.mpr ⟨hmem, by simp [hmiss]⟩)
  have hne : ¬ (cpMissingEntries (.vObj fields)).isEmpty = true := by
    intro h
    rw [List.isEmpty_iff] at h
    rw [h] at hment
    cases hment
  have hh : handleCreatePaymentCard (.vObj fields) client cfg now =
      (⟨cpMissingText (.vObj fields)⟩, []) := by
    simp only [handleCreatePaymentCard]
    rw [if_neg (by simp [isNullish] : ¬ isNullish (Value.vObj fields) = true),
      if_pos hne]
  refine ⟨⟨?_, by rw [hh]⟩, ?_, ?_, ?_⟩
  · rw [hh]
    show strHas (cpMissingText (.vObj fields)) _
    simp only [cpMissingText, strAppend_assoc]
    simp only [strAppend_assoc] at hment
    apply strHas_append_left
    apply strHas_append_left
    exact strHas_append_right _ _ _ (strHas_joinLines _ _ hment)
  · simp [handleCreateExternalBeneficiary, hb0, hbf]
  · simp [handleCreateInternalBeneficiary, hb0, hbal]
  · simp [handleCreateCryptoBeneficiary, hb0, hbf]

/-- Witness for C2 (amended): arguments containing only `concept` are
missing `description`, which the `create_paymentcard` error enumerates;
the beneficiary handlers fail fast on an empty arguments object. -/
theorem c2_amended_witness :
    (strHas (handleCreatePaymentCard (.vObj [("concept", .vStr "Test")])
        clientEmptyObj cfgSandbox nowFixed).1.text
      ("- **" ++ "description" ++ "**: " ++
        "Extra description of what is being paid") ∧
     (handleCreatePaymentCard (.vObj [("concept", .vStr "Test")])
        clientEmptyObj cfgSandbox nowFixed).2 = []) ∧
    handleCreateExternalBeneficiary (.vObj []) clientEmptyObj cfgSandbox =
      (⟨beneficiaryCatchText extFailHead
        (.jsError ("First name is required")) cfgSandbox⟩, []) ∧
    handleCreateInternalBeneficiary (.vObj []) clientEmptyObj cfgSandbox =
      (⟨beneficiaryCatchText intFailHead
        (.jsError ("Alias is required")) cfgSandbox⟩, []) ∧
    handleCreateCryptoBeneficiary (.vObj []) clientEmptyObj cfgSandbox =
      (⟨beneficiaryCatchText cryptoFailHead
        (.jsError ("First name is required")) cfgSandbox⟩, []) :=
  c2_amended [("concept", .vStr "Test")] ("description")
    ("Extra description of what is being paid") (by decide) (by decide)
    (.vObj []) (by decide) (by decide) (by decide) clientEmptyObj cfgSandbox
    nowFixed


/-- A prefix no longer than the first chunk only depends on that chunk. -/
theorem strStarts_append_iff (a b p : String)
    (h : p.data.length ≤ a.data.length) :
    strStarts (a ++ b) p ↔ strStarts a p := by
  unfold strStarts
  rw [String.data_append]
  constructor
  · rintro ⟨t, ht⟩
    refine ⟨a.data.drop p.data.length, ?_⟩
    have h2 := congrArg (List.take p.data.length) ht
    simp only [List.take_append_eq_append_take, List.take_length,
      Nat.sub_self, List.take_zero, List.append_nil,
      Nat.sub_eq_zero_of_le h] at h2
    nth_rewrite 1 [h2]
    exact List.take_append_drop _ _
  · rintro ⟨t, ht⟩
    exact ⟨t ++ b.data, by rw [← List.append_assoc, ht]⟩


/-! ## Claim C1: handler error behavior -/

/-- Counterexample for C1 as stated: `handleListPaymentcards` receives a
returned payload with `code` 500 and a non-null `error` field — exactly
the embedded-error condition of the claim — yet renders a response that
begins with the success marker, not a failure marker. -/
theorem c1_counterexample :
    errorIndicated (.vObj [("code", .vNum 500),
      ("error", .vStr "Service error")]) = true ∧
    strStarts (handleListPaymentcards clientErrPayload cfgSandbox
      nowFixed).1.text ("✅ Payment Cards List Successful") ∧
    ¬ strStarts (handleListPaymentcards clientErrPayload cfgSandbox
      nowFixed).1.text ("❌") := by
  refine ⟨rfl, ?_, ?_⟩
  · simp only [handleListPaymentcards, clientErrPayload]
    repeat' apply strStarts_trans_append
    decide
  · simp only [handleListPaymentcards, clientErrPayload, strAppend_assoc]
    rw [strStarts_append_iff _ _ _ (by decide)]
    decide


/-- Claim C1 as amended: a remote call that throws is caught by every
handler and converted to a returned text response that begins with a `❌`
failure marker naming the attempted operation (the handlers are total, so
nothing propagates); but only the three beneficiary-creation handlers
inspect a returned payload for an embedded error (`error` field or
`code >= 400`) — for them such a payload also yields a `❌` response
naming the operation, while the other handlers (see the counterexample)
render it as success. -/
theorem c1_amended (e : ThrownError) (cfg : TropiPayConfig) (now : String)
    (margs : Value)
    (pd pc pcur : String) (pa : Int)
    (hpd : isBlank pd = false) (hpc : isBlank pc = false)
    (hpcur : isBlank pcur = false)
    (bargs : Value) (hb0 : isNullish bargs = false)
    (hbf : truthy (getField bargs ("firstName")) = true)
    (hbl : truthy (getField bargs ("lastName")) = true)
    (hba : truthy (getField bargs ("accountNumber")) = true)
    (hbc : truthy (getField bargs ("currency")) = true)
    (hbd : truthy (getField bargs ("countryDestinationId")) = true)
    (hbal : truthy (getField bargs ("alias")) = true)
    (hbs : truthy (getField bargs ("searchValue")) = true)
    (hbn : truthy (getField bargs ("network")) = true)
    (r : List (String × Value)) (hr : errorIndicated (.vObj r) = true) :
    (handleGetAccountBalance (fun _ => .throws e) cfg now).1.text =
      "❌ Failed to get balance: " ++ thrownMessage e ∧
    (handleGetProfileData (fun _ => .throws e) cfg now).1.text =
      "❌ Failed to get profile: " ++ thrownMessage e ∧
    (handleGetMovementList margs (fun _ => .throws e) cfg now).1.text =
      "❌ Failed to get movements: " ++ thrownMessage e ∧
    (handleGetAccounts (fun _ => .throws e) cfg now).1.text =
      accountsCatchText (thrownMessage e) cfg ∧
    (handleListDepositAccounts (fun _ => .throws e) cfg now).1.text =
      depositListCatchText (thrownMessage e) cfg ∧
    (handleTestConnection (fun _ => .throws e) cfg now).1.text =
      "❌ Connection test failed: " ++ thrownMessage e ∧
    strStarts (handleListPaymentcards (fun _ => .throws e) cfg now).1.text
      ("❌ Failed to list payment cards") ∧
    (handleCreatePaymentCard (.vObj [("description", .vStr pd),
      ("concept", .vStr pc), ("amount", .vNum pa), ("currency", .vStr pcur)])
      (fun _ => .throws e) cfg now).1.text = cpCatchText e cfg ∧
    (handleCreateExternalBeneficiary bargs (fun _ => .throws e) cfg).1.text =
      beneficiaryCatchText extFailHead e cfg ∧
    (handleCreateInternalBeneficiary bargs (fun _ => .throws e) cfg).1.text =
      beneficiaryCatchText intFailHead e cfg ∧
    (handleCreateCryptoBeneficiary bargs (fun _ => .throws e) cfg).1.text =
      beneficiaryCatchText cryptoFailHead e cfg ∧
    strStarts (accountsCatchText (thrownMessage e) cfg)
      ("❌ Failed to retrieve TropiPay accounts") ∧
    strStarts (depositListCatchText (thrownMessage e) cfg)
      ("❌ Failed to retrieve TropiPay deposit accounts") ∧
    strStarts (cpCatchText e cfg) ("❌ Failed to create payment card") ∧
    strStarts (beneficiaryCatchText extFailHead e cfg)
      ("❌ Failed to create external bank account beneficiary") ∧
    strStarts (beneficiaryCatchText intFailHead e cfg)
      ("❌ Failed to create internal TropiPay beneficiary") ∧
    strStarts (beneficiaryCatchText cryptoFailHead e cfg)
      ("❌ Failed to create crypto wallet beneficiary") ∧
    (handleCreateExternalBeneficiary bargs
      (fun _ => .returns (.vObj r)) cfg).1.text =
      beneficiaryErrorText extFailHead (.vObj r) cfg ∧
    strStarts (beneficiaryErrorText extFailHead (.vObj r) cfg)
      ("❌ Failed to create external bank account beneficiary") ∧
    strStarts (handleCreateInternalBeneficiary bargs
      (fun _ => .returns (.vObj r)) cfg).1.text
      ("❌ Failed to create internal TropiPay beneficiary") ∧
    strStarts (handleCreateCryptoBeneficiary bargs
      (fun _ => .returns (.vObj r)) cfg).1.text
      ("❌ Failed to create crypto wallet beneficiary") := by
  have hmiss : (cpMissingEntries (.vObj [("description", .vStr pd),
      ("concept", .vStr pc), ("amount", .vNum pa),
      ("currency", .vStr pcur)])).isEmpty = true := by
    simp [cpMissingEntries, cpRequiredFields, getField, List.lookup,
      isMissingVal, hpd, hpc, hpcur]
  refine ⟨rfl, rfl, rfl, rfl, rfl, rfl, ?_, ?_, ?_, ?_, ?_, ?_, ?_, ?_, ?_,
    ?_, ?_, ?_, ?_, ?_, ?_⟩
  · simp only [handleListPaymentcards]
    repeat' apply strStarts_trans_append
    decide
  · simp only [handleCreatePaymentCard]
    rw [if_neg (by simp [isNullish] :
        ¬ isNullish (Value.vObj [("description", .vStr pd),
          ("concept", .vStr pc), ("amount", .vNum pa),
          ("currency", .vStr pcur)]) = true),
      if_neg (by simp [hmiss])]
  · simp [handleCreateExternalBeneficiary, hb0, hbf, hbl, hba, hbc, hbd]
  · simp [handleCreateInternalBeneficiary, hb0, hbal, hbs]
  · simp [handleCreateCryptoBeneficiary, hb0, hbf, hbl, hba, hbc, hbn]
  · simp only [accountsCatchText]
    repeat' apply strStarts_trans_append
    decide
  · simp only [depositListCatchText]
    repeat' apply strStarts_trans_append
    decide
  · simp only [cpCatchText]
    repeat' apply strStarts_trans_append
    decide
  · simp only [beneficiaryCatchText]
    repeat' apply strStarts_trans_append
    decide
  · simp only [beneficiaryCatchText]
    repeat' apply strStarts_trans_append
    decide
  · simp only [beneficiaryCatchText]
    repeat' apply strStarts_trans_append
    decide
  · simp [handleCreateExternalBeneficiary, hb0, hbf, hbl, hba, hbc, hbd, hr,
      show isNullish (Value.vObj r) = false from rfl]
  · simp only [beneficiaryErrorText]
    repeat' apply strStarts_trans_append
    decide
  · simp [handleCreateInternalBeneficiary, hb0, hbal, hbs, hr,
      show isNullish (Value.vObj r) = false from rfl]
    repeat' apply strStarts_trans_append
    decide
  · simp [handleCreateCryptoBeneficiary, hb0, hbf, hbl, hba, hbc, hbn, hr,
      show isNullish (Value.vObj r) = false from rfl]
    simp only [beneficiaryErrorText]
    repeat' apply strStarts_trans_append
    decide

/-- Arguments valid for all three beneficiary handlers at once. -/
def benArgsW : Value := .vObj [
  ("firstName", .vStr "Ana"), ("lastName", .vStr "Diaz"),
  ("accountNumber", .vStr "ES9121000418450200051332"),
  ("currency", .vStr "EUR"), ("countryDestinationId", .vNum 1),
  ("alias", .vStr "Savings"), ("searchValue", .vStr "wick@gmail.com"),
  ("network", .vStr "SOLANA")]

/-- Witness for C1 (amended) at a thrown `Error("boom")`, valid concrete
arguments and a concrete embedded-error payload. -/
theorem c1_amended_witness :
    (handleGetAccountBalance (fun _ => .throws (.jsError ("boom")))
      cfgSandbox nowFixed).1.text =
      "❌ Failed to get balance: " ++ thrownMessage (.jsError ("boom")) ∧
    (handleGetProfileData (fun _ => .throws (.jsError ("boom")))
      cfgSandbox nowFixed).1.text =
      "❌ Failed to get profile: " ++ thrownMessage (.jsError ("boom")) ∧
    (handleGetMovementList .vUndefined (fun _ => .throws (.jsError ("boom")))
      cfgSandbox nowFixed).1.text =
      "❌ Failed to get movements: " ++ thrownMessage (.jsError ("boom")) ∧
    (handleGetAccounts (fun _ => .throws (.jsError ("boom")))
      cfgSandbox nowFixed).1.text =
      accountsCatchText (thrownMessage (.jsError ("boom"))) cfgSandbox ∧
    (handleListDepositAccounts (fun _ => .throws (.jsError ("boom")))
      cfgSandbox nowFixed).1.text =
      depositListCatchText (thrownMessage (.jsError ("boom"))) cfgSandbox ∧
    (handleTestConnection (fun _ => .throws (.jsError ("boom")))
      cfgSandbox nowFixed).1.text =
      "❌ Connection test failed: " ++ thrownMessage (.jsError ("boom")) ∧
    strStarts (handleListPaymentcards (fun _ => .throws (.jsError ("boom")))
      cfgSandbox nowFixed).1.text ("❌ Failed to list payment cards") ∧
    (handleCreatePaymentCard (.vObj [("description", .vStr "Test desc"),
      ("concept", .vStr "Test"), ("amount", .vNum 5000),
      ("currency", .vStr "USD")])
      (fun _ => .throws (.jsError ("boom"))) cfgSandbox nowFixed).1.text =
      cpCatchText (.jsError ("boom")) cfgSandbox ∧
    (handleCreateExternalBeneficiary benArgsW
      (fun _ => .throws (.jsError ("boom"))) cfgSandbox).1.text =
      beneficiaryCatchText extFailHead (.jsError ("boom")) cfgSandbox ∧
    (handleCreateInternalBeneficiary benArgsW
      (fun _ => .throws (.jsError ("boom"))) cfgSandbox).1.text =
      beneficiaryCatchText intFailHead (.jsError ("boom")) cfgSandbox ∧
    (handleCreateCryptoBeneficiary benArgsW
      (fun _ => .throws (.jsError ("boom"))) cfgSandbox).1.text =
      beneficiaryCatchText cryptoFailHead (.jsError ("boom")) cfgSandbox ∧
    strStarts (accountsCatchText (thrownMessage (.jsError ("boom")))
      cfgSandbox) ("❌ Failed to retrieve TropiPay accounts") ∧
    strStarts (depositListCatchText (thrownMessage (.jsError ("boom")))
      cfgSandbox) ("❌ Failed to retrieve TropiPay deposit accounts") ∧
    strStarts (cpCatchText (.jsError ("boom")) cfgSandbox)
      ("❌ Failed to create payment card") ∧
    strStarts (beneficiaryCatchText extFailHead (.jsError ("boom")) cfgSandbox)
      ("❌ Failed to create external bank account beneficiary") ∧
    strStarts (beneficiaryCatchText intFailHead (.jsError ("boom")) cfgSandbox)
      ("❌ Failed to create internal TropiPay beneficiary") ∧
    strStarts (beneficiaryCatchText cryptoFailHead (.jsError ("boom"))
      cfgSandbox) ("❌ Failed to create crypto wallet beneficiary") ∧
    (handleCreateExternalBeneficiary benArgsW
      (fun _ => .returns (.vObj [("code", .vNum 500),
        ("error", .vStr "Service error")])) cfgSandbox).1.text =
      beneficiaryErrorText extFailHead (.vObj [("code", .vNum 500),
        ("error", .vStr "Service error")]) cfgSandbox ∧
    strStarts (beneficiaryErrorText extFailHead (.vObj [("code", .vNum 500),
      ("error", .vStr "Service error")]) cfgSandbox)
      ("❌ Failed to create external bank account beneficiary") ∧
    strStarts (handleCreateInternalBeneficiary benArgsW
      (fun _ => .returns (.vObj [("code", .vNum 500),
        ("error", .vStr "Service error")])) cfgSandbox).1.text
      ("❌ Failed to create internal TropiPay beneficiary") ∧
    strStarts (handleCreateCryptoBeneficiary benArgsW
      (fun _ => .returns (.vObj [("code", .vNum 500),
        ("error", .vStr "Service error")])) cfgSandbox).1.text
      ("❌ Failed to create crypto wallet beneficiary") :=
  c1_amended (.jsError ("boom")) cfgSandbox nowFixed .vUndefined
    ("Test desc") ("Test") ("USD") 5000 (by decide) (by decide) (by decide)
    benArgsW (by decide) (by decide) (by decide) (by decide) (by decide)
    (by decide) (by decide) (by decide) (by decide)
    [("code", .vNum 500), ("error", .vStr "Service error")] (by decide)

/-! ## Claim C7: unknown tool names -/

/-- Claim C7: a tool-call request whose name matches none of the
dispatcher's registered tools gets a normal text response — the `default`
branch throws `Unknown tool: <name>` and the outer catch renders it — and
the dispatcher is a total function, so the process does not crash; when
the client accessor fails first (missing credentials), the response is
the rendered configuration error instead, still a normal envelope. -/
theorem c7_unknown_tool (name : String) (hname : name ∉ knownIndexTools)
    (args : Value) (client : Client) (cfg : TropiPayConfig) (now : String) :
    idxCallTool name args true client cfg now =
      ⟨"❌ " ++ ("Unknown tool: " ++ name)⟩ ∧
    strStarts (idxCallTool name args true client cfg now).text
      ("❌ Unknown tool: ") ∧
    idxCallTool name args false client cfg now = ⟨"❌ " ++ credsErrorMsg⟩ := by
  simp only [knownIndexTools, List.mem_cons, List.not_mem_nil, or_false,
    not_or] at hname
  obtain ⟨h1, h2, h3, h4, h5, h6, h7⟩ := hname
  have he : idxCallTool name args true client cfg now =
      ⟨"❌ " ++ ("Unknown tool: " ++ name)⟩ := by
    simp [idxCallTool, h1, h2, h3, h4, h5, h6, h7]
  refine ⟨he, ?_, by simp [idxCallTool]⟩
  rw [he]
  show strStarts ("❌ " ++ ("Unknown tool: " ++ name)) _
  rw [← strAppend_assoc,
    show ("❌ " ++ "Unknown tool: " : String) = "❌ Unknown tool: " from by decide]
  exact strStarts_of_append _ _

/-- Witness for C7 at the unknown name `foo_bar`. -/
theorem c7_unknown_tool_witness :
    idxCallTool ("foo_bar") .vUndefined true clientEmptyObj cfgSandbox nowFixed =
      ⟨"❌ " ++ ("Unknown tool: " ++ "foo_bar")⟩ ∧
    strStarts (idxCallTool ("foo_bar") .vUndefined true clientEmptyObj cfgSandbox
      nowFixed).text ("❌ Unknown tool: ") ∧
    idxCallTool ("foo_bar") .vUndefined false clientEmptyObj cfgSandbox nowFixed =
      ⟨"❌ " ++ credsErrorMsg⟩ :=
  c7_unknown_tool ("foo_bar") (by decide) .vUndefined clientEmptyObj cfgSandbox
    nowFixed

/-- Substring evidence from an explicit decomposition. -/
theorem strHas_of_eq (t x m y : String) (ht : t = x ++ (m ++ y)) :
    strHas t m := by
  rw [ht]
  exact strHas_append_left _ _ _ (strHas_of_starts _ _ (strStarts_of_append _ _))

/-! ## Claim C10: the config resource never exposes the secret -/

/-- Claim C10: the `tropipay://config` resource text depends on the
client secret only through its presence flag: two configurations agreeing
on environment, base URL and client id whose secrets are both non-empty
produce identical resource texts (for both the entry-point and the
modular resource handler), and the client id is rendered truncated to its
first 8 characters plus `...`. -/
theorem c10_secret_not_exposed (c1 c2 : TropiPayConfig) (init : Bool)
    (henv : c1.environment = c2.environment) (hurl : c1.baseUrl = c2.baseUrl)
    (hid : c1.clientId = c2.clientId)
    (hs1 : optTruthy c1.clientSecret = true)
    (hs2 : optTruthy c2.clientSecret = true) :
    configResourceText c1 init = configResourceText c2 init ∧
    configResourceTextModular c1 = configResourceTextModular c2 ∧
    (∀ id : String, c1.clientId = some id → id ≠ "" →
      strHas (configResourceText c1 init) (jsonQuote (id.take 8 ++ "..."))) := by
  refine ⟨?_, ?_, ?_⟩
  · simp [configResourceText, henv, hurl, hid, hs1, hs2]
  · simp [configResourceTextModular, henv, hurl, hid, hs1, hs2]
  · intro id hcid hne
    have hopt : optTruthy c1.clientId = true := by
      rw [hcid]; simp [optTruthy, hne]
    have hoptid : optTruthy (some id) = true := by simp [optTruthy, hne]
    rcases hb : c1.baseUrl with _ | u
    · refine strHas_of_eq _
        ("\x7b" ++ (jsonQuote ("environment") ++ (":" ++
          (jsonQuote c1.environment ++ ("," ++ (jsonQuote ("hasCredentials") ++
          (":true," ++ (jsonQuote ("clientId") ++ ":"))))))))
        _
        ("," ++ (jsonQuote ("libraryVersion") ++ (":" ++
          (jsonQuote ("@yosle/tropipayjs v0.2.1") ++ ("," ++
          (jsonQuote ("clientInitialized") ++ (":" ++
          ((if init then ("true") else ("false")) ++ "\x7d")))))))) ?_
      simp [configResourceText, hcid, hopt, hs1, hb, optValue, jsonCompact,
        jsonCompactObj, isUndefinedV, strAppend_assoc, hoptid]
    · refine strHas_of_eq _
        ("\x7b" ++ (jsonQuote ("environment") ++ (":" ++
          (jsonQuote c1.environment ++ ("," ++ (jsonQuote ("baseUrl") ++
          (":" ++ (jsonQuote u ++ ("," ++ (jsonQuote ("hasCredentials") ++
          (":true," ++ (jsonQuote ("clientId") ++
          ":"))))))))))))
        _
        ("," ++ (jsonQuote ("libraryVersion") ++ (":" ++
          (jsonQuote ("@yosle/tropipayjs v0.2.1") ++ ("," ++
          (jsonQuote ("clientInitialized") ++ (":" ++
          ((if init then ("true") else ("false")) ++ "\x7d")))))))) ?_
      simp [configResourceText, hcid, hopt, hs1, hb, optValue, jsonCompact,
        jsonCompactObj, isUndefinedV, strAppend_assoc, hoptid]

/-- Witness for C10: two concrete configurations differing only in the
(non-empty) client secret produce identical config-resource texts, and
the text carries the truncated client id. -/
theorem c10_secret_not_exposed_witness :
    configResourceText cfgSandbox false =
      configResourceText
        ⟨"sandbox", none, some ("client1234567890"), some ("secretB")⟩ false ∧
    configResourceTextModular cfgSandbox =
      configResourceTextModular
        ⟨"sandbox", none, some ("client1234567890"), some ("secretB")⟩ ∧
    strHas (configResourceText cfgSandbox false)
      (jsonQuote (("client1234567890").take 8 ++ "...")) := by
  have h := c10_secret_not_exposed cfgSandbox
    ⟨"sandbox", none, some ("client1234567890"), some ("secretB")⟩ false
    rfl rfl rfl (by decide) (by decide)
  exact ⟨h.1, h.2.1, h.2.2 ("client1234567890") rfl (by decide)⟩
